import Mathlib

/-!
Verification development for the FreeboxOS dashboard core:
the telemetry normalizer (server/services/apiNormalizer.ts), the
client-side websocket reducer and system store
(src/hooks/useConnectionWebSocket.ts, src/stores/systemStore.ts),
and the reboot scheduler (server/services/scheduler.ts).

Raw telemetry records are shallowly embedded as a structure of the
fields the normalizer reads and writes; unknown vendor pass-through
keys (kept verbatim by the source's object spread) are outside the
model, as no verified property mentions them.  JavaScript numbers are
modelled as integers; Math.round on an exact quotient sum/n is
modelled by jsRound.
-/

set_option maxHeartbeats 1000000

/-- JavaScript Math.round applied to the exact rational sum/n
    (n > 0): round half toward positive infinity. -/
def jsRound (sum : Int) (n : Nat) : Int :=
  Int.fdiv (2 * sum + n) (2 * n)

/-- JavaScript String.prototype.startsWith, via character lists. -/
def jsStartsWith (s pat : String) : Bool :=
  pat.toList.isPrefixOf s.toList

/-- JavaScript regular-expression whitespace class \s (common members). -/
def jsIsSpace (c : Char) : Bool :=
  c = ' ' || c = '\t' || c = '\n' || c = '\r' || c = '\x0b' || c = '\x0c'

/-- JavaScript String.prototype.trim. -/
def jsTrim (s : String) : String :=
  String.mk (((s.toList.dropWhile jsIsSpace).reverse.dropWhile jsIsSpace).reverse)

/-- Case-insensitive match of a pattern at the head of a character
    list; returns the remainder on success. -/
def matchCI : List Char → List Char → Option (List Char)
  | [], rest => some rest
  | _ :: _, [] => none
  | p :: ps, c :: cs => if c.toLower = p.toLower then matchCI ps cs else none

/-- One application of .replace(/^Word\s+/i, ""): if the word matches
    case-insensitively at the start and is followed by at least one
    whitespace character, drop the word and the whole whitespace run. -/
def stripLeadingWord (word : String) (s : String) : String :=
  match matchCI word.toList s.toList with
  | some rest =>
    match rest with
    | [] => s
    | c :: _ => if jsIsSpace c then String.mk (rest.dropWhile jsIsSpace) else s
  | none => s

/-- .replace(/^Température\s+/i, "").replace(/^Temperature\s+/i, "").trim() -/
def stripTemperatureWord (s : String) : String :=
  jsTrim (stripLeadingWord "Temperature" (stripLeadingWord "Température" s))

/-- JavaScript \w word character (ASCII letters, digits, underscore). -/
def jsIsWordChar (c : Char) : Bool :=
  c.isAlpha || c.isDigit || c = '_'

/-- .replace(/\b\w/g, l => l.toUpperCase()): uppercase every word
    character that starts a word (is not preceded by a word character). -/
def upperAtBoundary : List Char → Bool → List Char
  | [], _ => []
  | c :: cs, prevWord =>
    (if jsIsWordChar c && !prevWord then c.toUpper else c)
      :: upperAtBoundary cs (jsIsWordChar c)

/-- JavaScript String.prototype.replace with a plain-string pattern:
    remove the first occurrence of pat (replacement is the empty string). -/
def removeFirstOcc (pat : List Char) : List Char → List Char
  | [] => []
  | c :: cs =>
    if pat.isPrefixOf (c :: cs) then (c :: cs).drop pat.length
    else c :: removeFirstOcc pat cs

/-- Fallback display name from a sensor id:
    id.replace('temp_','').replace(/_/g,' ').replace(/\b\w/g, upper). -/
def cleanSensorId (id : String) : String :=
  String.mk (upperAtBoundary
    ((removeFirstOcc "temp_".toList id.toList).map
      (fun c => if c = '_' then ' ' else c)) false)

/-- Fallback display name from a fan id:
    id.replace('_speed','').replace(/_/g,' ').replace(/\b\w/g, upper). -/
def cleanFanId (id : String) : String :=
  String.mk (upperAtBoundary
    ((removeFirstOcc "_speed".toList id.toList).map
      (fun c => if c = '_' then ' ' else c)) false)

/-- Sensor id to display name mapping (SENSOR_NAMES). -/
def SENSOR_NAMES : List (String × String) :=
  [("temp_cpu0", "CPU 0"), ("temp_cpu1", "CPU 1"),
   ("temp_cpu2", "CPU 2"), ("temp_cpu3", "CPU 3"),
   ("temp_cpum", "CPU"), ("temp_cpub", "CPU Box"), ("temp_sw", "Switch"),
   ("temp_hdd", "Disque"), ("temp_hdd0", "Disque 1"), ("temp_hdd1", "Disque 2"),
   ("t1", "CPU"), ("t2", "CPU Box"), ("t3", "Switch"),
   ("cpu_ap", "CPU"), ("cpu_cp", "CPU Box"), ("switch", "Switch")]

/-- Fan id to display name mapping (FAN_NAMES). -/
def FAN_NAMES : List (String × String) :=
  [("fan0_speed", "Ventilateur 1"), ("fan1_speed", "Ventilateur 2"),
   ("fan0", "Ventilateur 1"), ("fan1", "Ventilateur 2"),
   ("main", "Ventilateur"), ("fan", "Ventilateur"), ("fan_rpm", "Ventilateur")]

/-- getSensorDisplayName: mapping first, then cleaned original name
    (JavaScript truthiness: the empty string counts as absent), then
    cleaned-up id. -/
def getSensorDisplayName (id : String) (originalName : String) : String :=
  match SENSOR_NAMES.lookup id with
  | some n => n
  | none =>
    if originalName ≠ "" then stripTemperatureWord originalName
    else cleanSensorId id

/-- getFanDisplayName: mapping first, then the original name verbatim,
    then cleaned-up id. -/
def getFanDisplayName (id : String) (originalName : String) : String :=
  match FAN_NAMES.lookup id with
  | some n => n
  | none => if originalName ≠ "" then originalName else cleanFanId id

/-- A sensor/fan record {id, name, value}. -/
@[ext] structure Sensor where
  id : String
  name : String
  value : Int
deriving DecidableEq

/-- The raw / normalized system-info record restricted to the fields
    the normalizer reads or writes.  `none` models an absent key
    (JavaScript undefined/null); an absent or non-array sensors/fans
    key is `none`. -/
@[ext] structure RawSystemInfo where
  sensors : Option (List Sensor) := none
  fans : Option (List Sensor) := none
  temp_cpu0 : Option Int := none
  temp_cpu1 : Option Int := none
  temp_cpu2 : Option Int := none
  temp_cpu3 : Option Int := none
  temp_cpum : Option Int := none
  temp_cpub : Option Int := none
  temp_sw : Option Int := none
  fan_rpm : Option Int := none
deriving DecidableEq

/-- Rewrite one sensor entry's display name (the sensors .map). -/
def renameSensor (s : Sensor) : Sensor :=
  { s with name := getSensorDisplayName s.id s.name }

/-- Rewrite one fan entry's display name (the fans .map). -/
def renameFan (f : Sensor) : Sensor :=
  { f with name := getFanDisplayName f.id f.name }

/-- result[sensor.id] = sensor.value for an id with the temp_ naming
    convention, restricted to the modelled flat fields. -/
def setTempField (r : RawSystemInfo) (id : String) (v : Int) : RawSystemInfo :=
  if id = "temp_cpu0" then { r with temp_cpu0 := some v }
  else if id = "temp_cpu1" then { r with temp_cpu1 := some v }
  else if id = "temp_cpu2" then { r with temp_cpu2 := some v }
  else if id = "temp_cpu3" then { r with temp_cpu3 := some v }
  else if id = "temp_cpum" then { r with temp_cpum := some v }
  else if id = "temp_cpub" then { r with temp_cpub := some v }
  else if id = "temp_sw" then { r with temp_sw := some v }
  else r

/-- Extraction, first statement: copy a temp_-prefixed sensor into the
    flat field of the same name. -/
def extractStepA (r : RawSystemInfo) (s : Sensor) : RawSystemInfo :=
  if jsStartsWith s.id "temp_" then setTempField r s.id s.value else r

/-- Extraction, second statement: t1/cpu_ap onto temp_cpum. -/
def extractStepB (r : RawSystemInfo) (s : Sensor) : RawSystemInfo :=
  if s.id = "t1" ∨ s.id = "cpu_ap" then { r with temp_cpum := some s.value } else r

/-- Extraction, third statement: t2/cpu_cp onto temp_cpub. -/
def extractStepC (r : RawSystemInfo) (s : Sensor) : RawSystemInfo :=
  if s.id = "t2" ∨ s.id = "cpu_cp" then { r with temp_cpub := some s.value } else r

/-- Extraction, fourth statement: t3/switch onto temp_sw. -/
def extractStepD (r : RawSystemInfo) (s : Sensor) : RawSystemInfo :=
  if s.id = "t3" ∨ s.id = "switch" then { r with temp_sw := some s.value } else r

/-- One iteration of the extraction loop over rawSensors: copy a
    temp_-prefixed sensor into the flat field of the same name, and map
    the short ids t1/cpu_ap, t2/cpu_cp, t3/switch onto the legacy
    aggregate fields, in the source's statement order. -/
def extractStep (r : RawSystemInfo) (s : Sensor) : RawSystemInfo :=
  extractStepD (extractStepC (extractStepB (extractStepA r s) s) s) s

/-- The full extraction loop (for (const sensor of rawSensors)). -/
def extractFlats (r : RawSystemInfo) (l : List Sensor) : RawSystemInfo :=
  l.foldl extractStep r

/-- For Ultra: calculate temp_cpum as the rounded mean of the available
    core values when temp_cpu0 is present and temp_cpum is absent. -/
def deriveCpum (r : RawSystemInfo) : RawSystemInfo :=
  if r.temp_cpu0.isSome ∧ r.temp_cpum = none then
    let coreTemps := [r.temp_cpu0, r.temp_cpu1, r.temp_cpu2, r.temp_cpu3].filterMap id
    if 0 < coreTemps.length then
      { r with temp_cpum := some (jsRound coreTemps.sum coreTemps.length) }
    else r
  else r

/-- One conditional push of the legacy-format synthesis. -/
def optEntry (id nm : String) (o : Option Int) : List Sensor :=
  match o with
  | some v => [⟨id, nm, v⟩]
  | none => []

/-- Legacy format: build the sensors array from the flat fields.  The
    four per-core pushes are guarded by the presence of temp_cpu0
    (the Ultra-v9 format check), then the legacy aggregate fields. -/
def synthSensors (data : RawSystemInfo) : List Sensor :=
  (if data.temp_cpu0.isSome then
    optEntry "temp_cpu0" "CPU 0" data.temp_cpu0
      ++ optEntry "temp_cpu1" "CPU 1" data.temp_cpu1
      ++ optEntry "temp_cpu2" "CPU 2" data.temp_cpu2
      ++ optEntry "temp_cpu3" "CPU 3" data.temp_cpu3
  else [])
    ++ optEntry "temp_cpum" "CPU" data.temp_cpum
    ++ optEntry "temp_cpub" "CPU Box" data.temp_cpub
    ++ optEntry "temp_sw" "Switch" data.temp_sw

/-- rawFans.find(f => id is an explicit main-fan alias) || rawFans[0]. -/
def mainFan (l : List Sensor) : Option Sensor :=
  (l.find? (fun f =>
    f.id = "fan0_speed" || f.id = "main" || f.id = "fan0" || f.id = "fan")).orElse
    (fun _ => l.head?)

/-- The sensors half of normalizeSystemInfo: array shape present →
    rename entries, extract flat fields, derive the aggregate; array
    shape absent → synthesize the array from the flat fields, omitting
    the key when the synthesized list is empty. -/
def normalizeSensorsStage (data : RawSystemInfo) : RawSystemInfo :=
  match data.sensors with
  | some rawSensors =>
    deriveCpum (extractFlats
      { data with sensors := some (rawSensors.map renameSensor) } rawSensors)
  | none =>
    let s := synthSensors data
    if s.isEmpty then data else { data with sensors := some s }

/-- The fans half of normalizeSystemInfo, reading the raw input's fans
    and fan_rpm fields and writing into the accumulated result. -/
def normalizeFansStage (data : RawSystemInfo) (r : RawSystemInfo) : RawSystemInfo :=
  match data.fans with
  | some rawFans =>
    let r1 := { r with fans := some (rawFans.map renameFan) }
    match mainFan rawFans with
    | some f => { r1 with fan_rpm := some f.value }
    | none => r1
  | none =>
    match data.fan_rpm with
    | some v => { r with fans := some [⟨"fan_rpm", "Ventilateur", v⟩] }
    | none => r

/-- normalizeSystemInfo (server/services/apiNormalizer.ts). -/
def normalizeSystemInfo (data : RawSystemInfo) : RawSystemInfo :=
  normalizeFansStage data (normalizeSensorsStage data)

/-- The value left in a flat field by a last-write-wins loop over the
    sensors whose id belongs to the field's writer set, starting from
    a default. -/
def lastWrite (w : List String) (l : List Sensor) (d : Option Int) : Option Int :=
  l.foldl (fun acc s => if s.id ∈ w then some s.value else acc) d

/-!
Client side (src/hooks/useConnectionWebSocket.ts and
src/stores/systemStore.ts): the websocket message reducers and the
fetchSystemInfo success path, acting on the zustand store states.
Display timestamps (new Date().toLocaleTimeString()) are passed in as
an opaque string parameter.
-/

/-- The system_status message payload (SystemStatusData). -/
structure SystemStatusData where
  temp_cpu0 : Option Int := none
  temp_cpu1 : Option Int := none
  temp_cpu2 : Option Int := none
  temp_cpu3 : Option Int := none
  temp_cpum : Option Int := none
  temp_cpub : Option Int := none
  temp_sw : Option Int := none
  fan_rpm : Option Int := none
  uptime_val : Option Int := none
deriving DecidableEq

/-- The client-side SystemInfo snapshot restricted to the fields the
    reducers read or write, plus one representative field
    (box_model_name) that is only ever carried by the object spread. -/
structure SystemInfoC where
  sensors : Option (List Sensor) := none
  temp_cpu0 : Option Int := none
  temp_cpu1 : Option Int := none
  temp_cpu2 : Option Int := none
  temp_cpu3 : Option Int := none
  temp_cpum : Option Int := none
  temp_cpub : Option Int := none
  temp_sw : Option Int := none
  fan_rpm : Option Int := none
  uptime_val : Option Int := none
  box_model_name : Option String := none
deriving DecidableEq

/-- One TemperatureHistoryPoint {time, cpuM?, cpuB?, sw?}. -/
structure TempPoint where
  time : String
  cpuM : Option Int := none
  cpuB : Option Int := none
  sw : Option Int := none
deriving DecidableEq

/-- The system store slice the reducers touch. -/
structure SystemClientState where
  info : Option SystemInfoC := none
  temperatureHistory : List TempPoint := []
deriving DecidableEq

/-- ConnectionStatus restricted to the fields the reducer reads. -/
structure ConnStatus where
  rate_down : Int
  rate_up : Int
deriving DecidableEq

/-- One connection-rate history point {time, download, upload}. -/
structure NetPoint where
  time : String
  download : Int
  upload : Int
deriving DecidableEq

/-- The connection store slice the reducer touches. -/
structure ConnClientState where
  status : Option ConnStatus := none
  error : Option String := none
  history : List NetPoint := []
deriving DecidableEq

/-- JavaScript Array.prototype.slice(-n): the last n elements. -/
def lastN (n : Nat) (l : List α) : List α :=
  l.drop (l.length - n)

/-- The websocket reducer's main-CPU aggregate: average of the Ultra
    cores when temp_cpu0 is present, otherwise the legacy temp_cpum. -/
def wsCpuM (d : SystemStatusData) : Option Int :=
  if d.temp_cpu0.isSome then
    let temps := [d.temp_cpu0, d.temp_cpu1, d.temp_cpu2, d.temp_cpu3].filterMap id
    if 0 < temps.length then some (jsRound temps.sum temps.length) else none
  else d.temp_cpum

/-- The history point appended by the system_status branch. -/
def sysPoint (now : String) (d : SystemStatusData) : TempPoint :=
  { time := now, cpuM := wsCpuM d, cpuB := d.temp_cpub, sw := d.temp_sw }

/-- The updatedInfo merge of the system_status branch: spread of the
    previous snapshot, then every telemetry field overwritten with the
    message's value; temp_cpum falls back to the recomputed aggregate
    and uptime_val falls back to the previous value (??). -/
def mergeInfo (d : SystemStatusData) (info : SystemInfoC) : SystemInfoC :=
  { info with
    temp_cpu0 := d.temp_cpu0
    temp_cpu1 := d.temp_cpu1
    temp_cpu2 := d.temp_cpu2
    temp_cpu3 := d.temp_cpu3
    temp_cpum := d.temp_cpum.orElse (fun _ => wsCpuM d)
    temp_cpub := d.temp_cpub
    temp_sw := d.temp_sw
    fan_rpm := d.fan_rpm
    uptime_val := d.uptime_val.orElse (fun _ => info.uptime_val) }

/-- The system_status branch of the websocket onmessage handler. -/
def wsReduceSystemStatus (now : String) (d : SystemStatusData)
    (st : SystemClientState) : SystemClientState :=
  { info := st.info.map (mergeInfo d)
    temperatureHistory := lastN 59 st.temperatureHistory ++ [sysPoint now d] }

/-- The history point appended by the connection_status branch. -/
def connPoint (now : String) (s : ConnStatus) : NetPoint :=
  { time := now, download := jsRound s.rate_down 1024, upload := jsRound s.rate_up 1024 }

/-- The connection_status branch of the websocket onmessage handler. -/
def wsReduceConnectionStatus (now : String) (s : ConnStatus)
    (st : ConnClientState) : ConnClientState :=
  { status := some s
    error := none
    history := lastN 59 st.history ++ [connPoint now s] }

/-- fetchSystemInfo's cpuM derivation: sensors array first (average of
    the CPU-matching sensors), then the legacy flat fields. -/
def fetchCpuM (info : SystemInfoC) : Option Int :=
  let fromSensors : Option Int :=
    match info.sensors with
    | some ss =>
      if 0 < ss.length then
        let cpuSensors := ss.filter (fun s =>
          jsStartsWith s.id "temp_cpu" || jsStartsWith s.id "cpu" || s.id = "t1")
        if 0 < cpuSensors.length then
          some (jsRound (cpuSensors.map Sensor.value).sum cpuSensors.length)
        else none
      else none
    | none => none
  match fromSensors with
  | some v => some v
  | none =>
    if info.temp_cpu0.isSome then
      let temps := [info.temp_cpu0, info.temp_cpu1, info.temp_cpu2, info.temp_cpu3].filterMap id
      if 0 < temps.length then some (jsRound temps.sum temps.length) else none
    else info.temp_cpum

/-- fetchSystemInfo's switch-temperature derivation. -/
def fetchSw (info : SystemInfoC) : Option Int :=
  (match info.sensors with
   | some ss =>
     if 0 < ss.length then
       (ss.find? (fun s : Sensor => s.id = "temp_sw" || s.id = "sw" || s.id = "t2")).map Sensor.value
     else none
   | none => none).orElse (fun _ => info.temp_sw)

/-- fetchSystemInfo's CPU-box-temperature derivation. -/
def fetchCpuB (info : SystemInfoC) : Option Int :=
  (match info.sensors with
   | some ss =>
     if 0 < ss.length then
       (ss.find? (fun s : Sensor => s.id = "temp_cpub" || s.id = "cpub")).map Sensor.value
     else none
   | none => none).orElse (fun _ => info.temp_cpub)

/-- The history point appended by the fetchSystemInfo success path. -/
def fetchPoint (now : String) (info : SystemInfoC) : TempPoint :=
  { time := now, cpuM := fetchCpuM info, cpuB := fetchCpuB info, sw := fetchSw info }

/-- The fetchSystemInfo success path: replace the snapshot and append
    one history point, keeping the last 60. -/
def fetchReduceSystemInfo (now : String) (info : SystemInfoC)
    (st : SystemClientState) : SystemClientState :=
  { info := some info
    temperatureHistory := lastN 59 st.temperatureHistory ++ [fetchPoint now info] }

/-- The client-side events that touch the history buffers. -/
inductive ClientEvent where
  | connMsg (now : String) (s : ConnStatus)
  | sysMsg (now : String) (d : SystemStatusData)
  | fetchOk (now : String) (info : SystemInfoC)

/-- The combined client store state. -/
structure ClientState where
  conn : ConnClientState := {}
  sys : SystemClientState := {}
deriving DecidableEq

/-- Dispatch one incoming event to the matching reducer. -/
def clientStep (st : ClientState) (e : ClientEvent) : ClientState :=
  match e with
  | .connMsg now s => { st with conn := wsReduceConnectionStatus now s st.conn }
  | .sysMsg now d => { st with sys := wsReduceSystemStatus now d st.sys }
  | .fetchOk now info => { st with sys := fetchReduceSystemInfo now info st.sys }

/-- Process a sequence of incoming events. -/
def clientRun (st : ClientState) (es : List ClientEvent) : ClientState :=
  es.foldl clientStep st

/-!
Reboot scheduler (server/services/scheduler.ts).  The durable-storage
write is modelled as succeeding (the source's failure path only logs);
the zero-or-one active cron task is modelled by the optional cron
expression it was created from.
-/

/-- RebootSchedule {enabled, days (0-6), time "HH:MM"}. -/
structure RebootSchedule where
  enabled : Bool
  days : List Nat
  time : String
deriving DecidableEq

/-- DEFAULT_SCHEDULE. -/
def DEFAULT_SCHEDULE : RebootSchedule :=
  { enabled := false, days := [], time := "03:00" }

/-- A Partial RebootSchedule update request: present keys only. -/
structure PartialRebootSchedule where
  enabled : Option Bool := none
  days : Option (List Nat) := none
  time : Option String := none
deriving DecidableEq

/-- The scheduler service state: in-memory schedule, the zero-or-one
    active cron task, and the durably stored record. -/
structure SchedulerState where
  schedule : RebootSchedule
  task : Option String := none
  persisted : Option RebootSchedule := none
deriving DecidableEq

/-- The object-spread merge { ...this.schedule, ...newSchedule }. -/
def mergeSchedule (s : RebootSchedule) (p : PartialRebootSchedule) : RebootSchedule :=
  { enabled := p.enabled.getD s.enabled
    days := p.days.getD s.days
    time := p.time.getD s.time }

/-- Split a character list at every occurrence of a separator
    (JavaScript String.prototype.split with a one-character string). -/
def splitOnChar (c : Char) : List Char → List (List Char)
  | [] => [[]]
  | x :: xs =>
    match splitOnChar c xs with
    | [] => [[x]]
    | h :: t => if x = c then [] :: h :: t else (x :: h) :: t

/-- "HH:MM".split(':'). -/
def jsSplitColon (s : String) : List String :=
  (splitOnChar ':' s.toList).map String.mk

/-- Parse a decimal numeral (same success domain as String.toNat?). -/
def parseNat (l : List Char) : Option Nat :=
  if l.isEmpty then none
  else if l.all Char.isDigit then
    some (l.foldl (fun n c => n * 10 + (c.toNat - 48)) 0)
  else none

/-- Modelled from the spec: the external node-cron expression
    validation (the node-cron library is not part of src/).  Per the
    spec a recurrence rule fails validation when the hour/minute parts
    are not numbers in range or a weekday is outside 0-6. -/
def cronValidate (minutePart hourPart : String) (days : List Nat) : Bool :=
  ((parseNat minutePart.toList).elim false (fun m => m < 60))
    && ((parseNat hourPart.toList).elim false (fun h => h < 24))
    && days.all (fun d => d ≤ 6)

/-- updateCronJob: stop any existing task, bail out when the schedule
    is disabled or has no days, otherwise build the five-field cron
    expression from time and days and create the task when it
    validates. -/
def updateCronJob (st : SchedulerState) : SchedulerState :=
  let st1 := { st with task := none }
  if st1.schedule.enabled = false ∨ st1.schedule.days.isEmpty then st1
  else
    let parts := jsSplitColon st1.schedule.time
    let hour := parts.getD 0 "undefined"
    let minute := parts.getD 1 "undefined"
    let expr := minute ++ " " ++ hour ++ " * * "
      ++ String.intercalate "," (st1.schedule.days.map toString)
    if cronValidate minute hour st1.schedule.days then { st1 with task := some expr }
    else st1

/-- updateSchedule: merge the partial over the current record, persist
    it, rebuild the cron job, and return the merged record. -/
def updateSchedule (st : SchedulerState) (p : PartialRebootSchedule) :
    SchedulerState × RebootSchedule :=
  let sched := mergeSchedule st.schedule p
  let st1 := updateCronJob { st with schedule := sched, persisted := some sched }
  (st1, st1.schedule)

/-! Helper lemmas about the bounded history buffers. -/

theorem length_lastN_le (n : Nat) (l : List α) : (lastN n l).length ≤ n := by
  simp only [lastN, List.length_drop]
  omega

theorem lastN_append_one (n : Nat) (xs : List α) (p : α) :
    lastN n xs ++ [p] = lastN (n + 1) (xs ++ [p]) := by
  simp only [lastN, List.length_append, List.length_cons, List.length_nil,
    List.drop_append_eq_append_drop]
  have h1 : xs.length + (0 + 1) - (n + 1) = xs.length - n := by omega
  have h2 : xs.length - n - xs.length = 0 := by omega
  rw [h1, h2]
  rfl

/-- The connection_status branch appends one point and keeps the last
    60, evicting the oldest beyond capacity. -/
theorem connHistory_step (st : ClientState) (now : String) (s : ConnStatus) :
    (clientStep st (ClientEvent.connMsg now s)).conn.history
      = lastN 60 (st.conn.history ++ [connPoint now s]) := by
  simp only [clientStep, wsReduceConnectionStatus]
  exact lastN_append_one 59 _ _

/-- The system_status branch appends one point and keeps the last 60. -/
theorem tempHistory_step_sys (st : ClientState) (now : String) (d : SystemStatusData) :
    (clientStep st (ClientEvent.sysMsg now d)).sys.temperatureHistory
      = lastN 60 (st.sys.temperatureHistory ++ [sysPoint now d]) := by
  simp only [clientStep, wsReduceSystemStatus]
  exact lastN_append_one 59 _ _

/-- The fetchSystemInfo success path appends one point and keeps the
    last 60. -/
theorem tempHistory_step_fetch (st : ClientState) (now : String) (info : SystemInfoC) :
    (clientStep st (ClientEvent.fetchOk now info)).sys.temperatureHistory
      = lastN 60 (st.sys.temperatureHistory ++ [fetchPoint now info]) := by
  simp only [clientStep, fetchReduceSystemInfo]
  exact lastN_append_one 59 _ _

theorem clientStep_bounds (st : ClientState) (e : ClientEvent)
    (h1 : st.conn.history.length ≤ 60)
    (h2 : st.sys.temperatureHistory.length ≤ 60) :
    (clientStep st e).conn.history.length ≤ 60
      ∧ (clientStep st e).sys.temperatureHistory.length ≤ 60 := by
  cases e with
  | connMsg now s =>
    refine ⟨?_, by simpa [clientStep] using h2⟩
    simp only [clientStep, wsReduceConnectionStatus, List.length_append]
    have := length_lastN_le 59 st.conn.history
    simp only [List.length_cons, List.length_nil]
    omega
  | sysMsg now d =>
    refine ⟨by simpa [clientStep] using h1, ?_⟩
    simp only [clientStep, wsReduceSystemStatus, List.length_append]
    have := length_lastN_le 59 st.sys.temperatureHistory
    simp only [List.length_cons, List.length_nil]
    omega
  | fetchOk now info =>
    refine ⟨by simpa [clientStep] using h1, ?_⟩
    simp only [clientStep, fetchReduceSystemInfo, List.length_append]
    have := length_lastN_le 59 st.sys.temperatureHistory
    simp only [List.length_cons, List.length_nil]
    omega

theorem clientRun_bounds (es : List ClientEvent) (st : ClientState)
    (h1 : st.conn.history.length ≤ 60)
    (h2 : st.sys.temperatureHistory.length ≤ 60) :
    (clientRun st es).conn.history.length ≤ 60
      ∧ (clientRun st es).sys.temperatureHistory.length ≤ 60 := by
  induction es generalizing st with
  | nil => exact ⟨h1, h2⟩
  | cons e es ih =>
    have hb := clientStep_bounds st e h1 h2
    simpa [clientRun, List.foldl_cons] using ih (clientStep st e) hb.1 hb.2

/-! Structural lemmas about the normalizer stages. -/

theorem setTempField_sensors (r : RawSystemInfo) (id : String) (v : Int) :
    (setTempField r id v).sensors = r.sensors := by
  simp only [setTempField]; split_ifs <;> rfl

theorem setTempField_fans (r : RawSystemInfo) (id : String) (v : Int) :
    (setTempField r id v).fans = r.fans := by
  simp only [setTempField]; split_ifs <;> rfl

theorem setTempField_fan_rpm (r : RawSystemInfo) (id : String) (v : Int) :
    (setTempField r id v).fan_rpm = r.fan_rpm := by
  simp only [setTempField]; split_ifs <;> rfl

theorem setTempField_cpu0 (r : RawSystemInfo) (id : String) (v : Int) :
    (setTempField r id v).temp_cpu0
      = if id = "temp_cpu0" then some v else r.temp_cpu0 := by
  simp only [setTempField]; split_ifs <;> simp_all

theorem setTempField_cpu1 (r : RawSystemInfo) (id : String) (v : Int) :
    (setTempField r id v).temp_cpu1
      = if id = "temp_cpu1" then some v else r.temp_cpu1 := by
  simp only [setTempField]; split_ifs <;> simp_all

theorem setTempField_cpu2 (r : RawSystemInfo) (id : String) (v : Int) :
    (setTempField r id v).temp_cpu2
      = if id = "temp_cpu2" then some v else r.temp_cpu2 := by
  simp only [setTempField]; split_ifs <;> simp_all

theorem setTempField_cpu3 (r : RawSystemInfo) (id : String) (v : Int) :
    (setTempField r id v).temp_cpu3
      = if id = "temp_cpu3" then some v else r.temp_cpu3 := by
  simp only [setTempField]; split_ifs <;> simp_all

theorem setTempField_cpum (r : RawSystemInfo) (id : String) (v : Int) :
    (setTempField r id v).temp_cpum
      = if id = "temp_cpum" then some v else r.temp_cpum := by
  simp only [setTempField]; split_ifs <;> simp_all

theorem setTempField_cpub (r : RawSystemInfo) (id : String) (v : Int) :
    (setTempField r id v).temp_cpub
      = if id = "temp_cpub" then some v else r.temp_cpub := by
  simp only [setTempField]; split_ifs <;> simp_all

theorem setTempField_sw (r : RawSystemInfo) (id : String) (v : Int) :
    (setTempField r id v).temp_sw
      = if id = "temp_sw" then some v else r.temp_sw := by
  simp only [setTempField]; split_ifs <;> simp_all

theorem extractStep_sensors (r : RawSystemInfo) (s : Sensor) :
    (extractStep r s).sensors = r.sensors := by
  simp only [extractStep, extractStepD, extractStepC, extractStepB, extractStepA]
  split_ifs <;> simp [setTempField_sensors]

theorem extractStep_fans (r : RawSystemInfo) (s : Sensor) :
    (extractStep r s).fans = r.fans := by
  simp only [extractStep, extractStepD, extractStepC, extractStepB, extractStepA]
  split_ifs <;> simp [setTempField_fans]

theorem extractStep_fan_rpm (r : RawSystemInfo) (s : Sensor) :
    (extractStep r s).fan_rpm = r.fan_rpm := by
  simp only [extractStep, extractStepD, extractStepC, extractStepB, extractStepA]
  split_ifs <;> simp [setTempField_fan_rpm]

theorem extractStepA_cpu0 (r : RawSystemInfo) (s : Sensor) :
    (extractStepA r s).temp_cpu0
      = if s.id = "temp_cpu0" then some s.value else r.temp_cpu0 := by
  simp only [extractStepA]
  split_ifs with h1 h2 <;> simp_all [setTempField_cpu0, jsStartsWith]

theorem extractStep_cpu0 (r : RawSystemInfo) (s : Sensor) :
    (extractStep r s).temp_cpu0
      = if s.id ∈ ["temp_cpu0"] then some s.value else r.temp_cpu0 := by
  simp only [extractStep, extractStepD, extractStepC, extractStepB,
    List.mem_cons, List.not_mem_nil, or_false]
  split_ifs <;> simp_all [extractStepA_cpu0]

theorem extractStepA_cpu1 (r : RawSystemInfo) (s : Sensor) :
    (extractStepA r s).temp_cpu1
      = if s.id = "temp_cpu1" then some s.value else r.temp_cpu1 := by
  simp only [extractStepA]
  split_ifs with h1 h2 <;> simp_all [setTempField_cpu1, jsStartsWith]

theorem extractStep_cpu1 (r : RawSystemInfo) (s : Sensor) :
    (extractStep r s).temp_cpu1
      = if s.id ∈ ["temp_cpu1"] then some s.value else r.temp_cpu1 := by
  simp only [extractStep, extractStepD, extractStepC, extractStepB,
    List.mem_cons, List.not_mem_nil, or_false]
  split_ifs <;> simp_all [extractStepA_cpu1]

theorem extractStepA_cpu2 (r : RawSystemInfo) (s : Sensor) :
    (extractStepA r s).temp_cpu2
      = if s.id = "temp_cpu2" then some s.value else r.temp_cpu2 := by
  simp only [extractStepA]
  split_ifs with h1 h2 <;> simp_all [setTempField_cpu2, jsStartsWith]

theorem extractStep_cpu2 (r : RawSystemInfo) (s : Sensor) :
    (extractStep r s).temp_cpu2
      = if s.id ∈ ["temp_cpu2"] then some s.value else r.temp_cpu2 := by
  simp only [extractStep, extractStepD, extractStepC, extractStepB,
    List.mem_cons, List.not_mem_nil, or_false]
  split_ifs <;> simp_all [extractStepA_cpu2]

theorem extractStepA_cpu3 (r : RawSystemInfo) (s : Sensor) :
    (extractStepA r s).temp_cpu3
      = if s.id = "temp_cpu3" then some s.value else r.temp_cpu3 := by
  simp only [extractStepA]
  split_ifs with h1 h2 <;> simp_all [setTempField_cpu3, jsStartsWith]

theorem extractStep_cpu3 (r : RawSystemInfo) (s : Sensor) :
    (extractStep r s).temp_cpu3
      = if s.id ∈ ["temp_cpu3"] then some s.value else r.temp_cpu3 := by
  simp only [extractStep, extractStepD, extractStepC, extractStepB,
    List.mem_cons, List.not_mem_nil, or_false]
  split_ifs <;> simp_all [extractStepA_cpu3]

theorem extractStepA_cpum (r : RawSystemInfo) (s : Sensor) :
    (extractStepA r s).temp_cpum
      = if s.id = "temp_cpum" then some s.value else r.temp_cpum := by
  simp only [extractStepA]
  split_ifs with h1 h2 <;> simp_all [setTempField_cpum, jsStartsWith]

theorem extractStep_cpum (r : RawSystemInfo) (s : Sensor) :
    (extractStep r s).temp_cpum
      = if s.id ∈ ["temp_cpum", "t1", "cpu_ap"] then some s.value else r.temp_cpum := by
  simp only [extractStep, extractStepD, extractStepC, extractStepB,
    List.mem_cons, List.not_mem_nil, or_false]
  split_ifs <;> simp_all [extractStepA_cpum]

theorem extractStepA_cpub (r : RawSystemInfo) (s : Sensor) :
    (extractStepA r s).temp_cpub
      = if s.id = "temp_cpub" then some s.value else r.temp_cpub := by
  simp only [extractStepA]
  split_ifs with h1 h2 <;> simp_all [setTempField_cpub, jsStartsWith]

theorem extractStep_cpub (r : RawSystemInfo) (s : Sensor) :
    (extractStep r s).temp_cpub
      = if s.id ∈ ["temp_cpub", "t2", "cpu_cp"] then some s.value else r.temp_cpub := by
  simp only [extractStep, extractStepD, extractStepC, extractStepB,
    List.mem_cons, List.not_mem_nil, or_false]
  split_ifs <;> simp_all [extractStepA_cpub]

theorem extractStepA_sw (r : RawSystemInfo) (s : Sensor) :
    (extractStepA r s).temp_sw
      = if s.id = "temp_sw" then some s.value else r.temp_sw := by
  simp only [extractStepA]
  split_ifs with h1 h2 <;> simp_all [setTempField_sw, jsStartsWith]

theorem extractStep_sw (r : RawSystemInfo) (s : Sensor) :
    (extractStep r s).temp_sw
      = if s.id ∈ ["temp_sw", "t3", "switch"] then some s.value else r.temp_sw := by
  simp only [extractStep, extractStepD, extractStepC, extractStepB,
    List.mem_cons, List.not_mem_nil, or_false]
  split_ifs <;> simp_all [extractStepA_sw]

theorem extractFlats_cons (r : RawSystemInfo) (s : Sensor) (l : List Sensor) :
    extractFlats r (s :: l) = extractFlats (extractStep r s) l := rfl

theorem extractFlats_sensors (r : RawSystemInfo) (l : List Sensor) :
    (extractFlats r l).sensors = r.sensors := by
  induction l generalizing r with
  | nil => rfl
  | cons s l ih => rw [extractFlats_cons, ih, extractStep_sensors]

theorem extractFlats_fans (r : RawSystemInfo) (l : List Sensor) :
    (extractFlats r l).fans = r.fans := by
  induction l generalizing r with
  | nil => rfl
  | cons s l ih => rw [extractFlats_cons, ih, extractStep_fans]

theorem extractFlats_fan_rpm (r : RawSystemInfo) (l : List Sensor) :
    (extractFlats r l).fan_rpm = r.fan_rpm := by
  induction l generalizing r with
  | nil => rfl
  | cons s l ih => rw [extractFlats_cons, ih, extractStep_fan_rpm]

theorem lastWrite_nil (w : List String) (d : Option Int) : lastWrite w [] d = d := rfl

theorem lastWrite_cons (w : List String) (s : Sensor) (l : List Sensor) (d : Option Int) :
    lastWrite w (s :: l) d = lastWrite w l (if s.id ∈ w then some s.value else d) := rfl

theorem extractFlats_lw_cpu0 (r : RawSystemInfo) (l : List Sensor) :
    (extractFlats r l).temp_cpu0 = lastWrite ["temp_cpu0"] l r.temp_cpu0 := by
  induction l generalizing r with
  | nil => rfl
  | cons s l ih =>
    rw [extractFlats_cons, ih, lastWrite_cons, extractStep_cpu0]

theorem extractFlats_lw_cpu1 (r : RawSystemInfo) (l : List Sensor) :
    (extractFlats r l).temp_cpu1 = lastWrite ["temp_cpu1"] l r.temp_cpu1 := by
  induction l generalizing r with
  | nil => rfl
  | cons s l ih =>
    rw [extractFlats_cons, ih, lastWrite_cons, extractStep_cpu1]

theorem extractFlats_lw_cpu2 (r : RawSystemInfo) (l : List Sensor) :
    (extractFlats r l).temp_cpu2 = lastWrite ["temp_cpu2"] l r.temp_cpu2 := by
  induction l generalizing r with
  | nil => rfl
  | cons s l ih =>
    rw [extractFlats_cons, ih, lastWrite_cons, extractStep_cpu2]

theorem extractFlats_lw_cpu3 (r : RawSystemInfo) (l : List Sensor) :
    (extractFlats r l).temp_cpu3 = lastWrite ["temp_cpu3"] l r.temp_cpu3 := by
  induction l generalizing r with
  | nil => rfl
  | cons s l ih =>
    rw [extractFlats_cons, ih, lastWrite_cons, extractStep_cpu3]

theorem extractFlats_lw_cpum (r : RawSystemInfo) (l : List Sensor) :
    (extractFlats r l).temp_cpum = lastWrite ["temp_cpum", "t1", "cpu_ap"] l r.temp_cpum := by
  induction l generalizing r with
  | nil => rfl
  | cons s l ih =>
    rw [extractFlats_cons, ih, lastWrite_cons, extractStep_cpum]

theorem extractFlats_lw_cpub (r : RawSystemInfo) (l : List Sensor) :
    (extractFlats r l).temp_cpub = lastWrite ["temp_cpub", "t2", "cpu_cp"] l r.temp_cpub := by
  induction l generalizing r with
  | nil => rfl
  | cons s l ih =>
    rw [extractFlats_cons, ih, lastWrite_cons, extractStep_cpub]

theorem extractFlats_lw_sw (r : RawSystemInfo) (l : List Sensor) :
    (extractFlats r l).temp_sw = lastWrite ["temp_sw", "t3", "switch"] l r.temp_sw := by
  induction l generalizing r with
  | nil => rfl
  | cons s l ih =>
    rw [extractFlats_cons, ih, lastWrite_cons, extractStep_sw]

theorem lastWrite_absorb (w : List String) (l : List Sensor) (d : Option Int) :
    lastWrite w l (lastWrite w l d) = lastWrite w l d := by
  induction l generalizing d with
  | nil => rfl
  | cons s l ih =>
    by_cases h : s.id ∈ w
    · simp [lastWrite_cons, h]
    · simpa [lastWrite_cons, h] using ih d

theorem lastWrite_of_eq_none (w : List String) (l : List Sensor) (d : Option Int)
    (h : lastWrite w l d = none) : ∀ d', lastWrite w l d' = d' := by
  induction l generalizing d with
  | nil => intro d'; rfl
  | cons s l ih =>
    by_cases hm : s.id ∈ w
    · exfalso
      rw [lastWrite_cons, if_pos hm] at h
      have := ih (some s.value) h (some s.value)
      rw [h] at this
      exact Option.noConfusion this
    · rw [lastWrite_cons, if_neg hm] at h
      intro d'
      rw [lastWrite_cons, if_neg hm]
      exact ih d h d'

theorem lastWrite_map_renameSensor (w : List String) (l : List Sensor) (d : Option Int) :
    lastWrite w (l.map renameSensor) d = lastWrite w l d := by
  induction l generalizing d with
  | nil => rfl
  | cons s l ih =>
    rw [List.map_cons, lastWrite_cons, lastWrite_cons]
    exact ih _

theorem lastWrite_append (w : List String) (a b : List Sensor) (d : Option Int) :
    lastWrite w (a ++ b) d = lastWrite w b (lastWrite w a d) := by
  simp [lastWrite, List.foldl_append]

theorem lastWrite_optEntry (w : List String) (id nm : String) (o : Option Int)
    (d : Option Int) :
    lastWrite w (optEntry id nm o) d
      = match o with
        | some v => if id ∈ w then some v else d
        | none => d := by
  cases o <;> simp [optEntry, lastWrite_nil, lastWrite_cons]

theorem deriveCpum_sensors (r : RawSystemInfo) : (deriveCpum r).sensors = r.sensors := by
  simp only [deriveCpum]; split_ifs <;> rfl

theorem deriveCpum_fans (r : RawSystemInfo) : (deriveCpum r).fans = r.fans := by
  simp only [deriveCpum]; split_ifs <;> rfl

theorem deriveCpum_fan_rpm (r : RawSystemInfo) : (deriveCpum r).fan_rpm = r.fan_rpm := by
  simp only [deriveCpum]; split_ifs <;> rfl

theorem deriveCpum_cpu0 (r : RawSystemInfo) : (deriveCpum r).temp_cpu0 = r.temp_cpu0 := by
  simp only [deriveCpum]; split_ifs <;> rfl

theorem deriveCpum_cpu1 (r : RawSystemInfo) : (deriveCpum r).temp_cpu1 = r.temp_cpu1 := by
  simp only [deriveCpum]; split_ifs <;> rfl

theorem deriveCpum_cpu2 (r : RawSystemInfo) : (deriveCpum r).temp_cpu2 = r.temp_cpu2 := by
  simp only [deriveCpum]; split_ifs <;> rfl

theorem deriveCpum_cpu3 (r : RawSystemInfo) : (deriveCpum r).temp_cpu3 = r.temp_cpu3 := by
  simp only [deriveCpum]; split_ifs <;> rfl

theorem deriveCpum_cpub (r : RawSystemInfo) : (deriveCpum r).temp_cpub = r.temp_cpub := by
  simp only [deriveCpum]; split_ifs <;> rfl

theorem deriveCpum_sw (r : RawSystemInfo) : (deriveCpum r).temp_sw = r.temp_sw := by
  simp only [deriveCpum]; split_ifs <;> rfl

theorem deriveCpum_id_of_guard_false (r : RawSystemInfo)
    (h : ¬(r.temp_cpu0.isSome ∧ r.temp_cpum = none)) : deriveCpum r = r := by
  simp [deriveCpum, h]

theorem deriveCpum_cpum (r : RawSystemInfo) :
    (deriveCpum r).temp_cpum
      = if r.temp_cpu0.isSome ∧ r.temp_cpum = none then
          some (jsRound ([r.temp_cpu0, r.temp_cpu1, r.temp_cpu2, r.temp_cpu3].filterMap id).sum
            ([r.temp_cpu0, r.temp_cpu1, r.temp_cpu2, r.temp_cpu3].filterMap id).length)
        else r.temp_cpum := by
  by_cases h : r.temp_cpu0.isSome ∧ r.temp_cpum = none
  · obtain ⟨v, hv⟩ := Option.isSome_iff_exists.mp h.1
    simp only [deriveCpum, h, if_true, hv]
    simp
  · simp [deriveCpum, h]

theorem fansStage_preserves (data r : RawSystemInfo) :
    (normalizeFansStage data r).sensors = r.sensors
    ∧ (normalizeFansStage data r).temp_cpu0 = r.temp_cpu0
    ∧ (normalizeFansStage data r).temp_cpu1 = r.temp_cpu1
    ∧ (normalizeFansStage data r).temp_cpu2 = r.temp_cpu2
    ∧ (normalizeFansStage data r).temp_cpu3 = r.temp_cpu3
    ∧ (normalizeFansStage data r).temp_cpum = r.temp_cpum
    ∧ (normalizeFansStage data r).temp_cpub = r.temp_cpub
    ∧ (normalizeFansStage data r).temp_sw = r.temp_sw := by
  cases hf : data.fans with
  | some lf =>
    cases hm : mainFan lf <;> simp [normalizeFansStage, hf, hm]
  | none =>
    cases hr : data.fan_rpm <;> simp [normalizeFansStage, hf, hr]

theorem sensorsStage_fans (data : RawSystemInfo) :
    (normalizeSensorsStage data).fans = data.fans := by
  cases hs : data.sensors with
  | some l =>
    simp only [normalizeSensorsStage, hs]
    rw [deriveCpum_fans, extractFlats_fans]
  | none =>
    simp only [normalizeSensorsStage, hs]
    split_ifs <;> rfl

theorem sensorsStage_fan_rpm (data : RawSystemInfo) :
    (normalizeSensorsStage data).fan_rpm = data.fan_rpm := by
  cases hs : data.sensors with
  | some l =>
    simp only [normalizeSensorsStage, hs]
    rw [deriveCpum_fan_rpm, extractFlats_fan_rpm]
  | none =>
    simp only [normalizeSensorsStage, hs]
    split_ifs <;> rfl

theorem sensorsStage_temps_flat (data : RawSystemInfo) (hs : data.sensors = none) :
    (normalizeSensorsStage data).temp_cpu0 = data.temp_cpu0
    ∧ (normalizeSensorsStage data).temp_cpu1 = data.temp_cpu1
    ∧ (normalizeSensorsStage data).temp_cpu2 = data.temp_cpu2
    ∧ (normalizeSensorsStage data).temp_cpu3 = data.temp_cpu3
    ∧ (normalizeSensorsStage data).temp_cpum = data.temp_cpum
    ∧ (normalizeSensorsStage data).temp_cpub = data.temp_cpub
    ∧ (normalizeSensorsStage data).temp_sw = data.temp_sw := by
  simp only [normalizeSensorsStage, hs]
  split_ifs <;> simp

theorem norm_temps_flat (data : RawSystemInfo) (hs : data.sensors = none) :
    (normalizeSystemInfo data).temp_cpu0 = data.temp_cpu0
    ∧ (normalizeSystemInfo data).temp_cpu1 = data.temp_cpu1
    ∧ (normalizeSystemInfo data).temp_cpu2 = data.temp_cpu2
    ∧ (normalizeSystemInfo data).temp_cpu3 = data.temp_cpu3
    ∧ (normalizeSystemInfo data).temp_cpum = data.temp_cpum
    ∧ (normalizeSystemInfo data).temp_cpub = data.temp_cpub
    ∧ (normalizeSystemInfo data).temp_sw = data.temp_sw := by
  obtain ⟨_, p0, p1, p2, p3, pm, pb, pw⟩ :=
    fansStage_preserves data (normalizeSensorsStage data)
  obtain ⟨q0, q1, q2, q3, qm, qb, qw⟩ := sensorsStage_temps_flat data hs
  exact ⟨p0.trans q0, p1.trans q1, p2.trans q2, p3.trans q3,
    pm.trans qm, pb.trans qb, pw.trans qw⟩

theorem norm_cpu0_array (data : RawSystemInfo) (l : List Sensor)
    (hs : data.sensors = some l) :
    (normalizeSystemInfo data).temp_cpu0 = lastWrite ["temp_cpu0"] l data.temp_cpu0 := by
  show (normalizeFansStage data (normalizeSensorsStage data)).temp_cpu0 = _
  rw [(fansStage_preserves data (normalizeSensorsStage data)).2.1]
  simp only [normalizeSensorsStage, hs]
  rw [deriveCpum_cpu0, extractFlats_lw_cpu0]

theorem norm_cpu1_array (data : RawSystemInfo) (l : List Sensor)
    (hs : data.sensors = some l) :
    (normalizeSystemInfo data).temp_cpu1 = lastWrite ["temp_cpu1"] l data.temp_cpu1 := by
  show (normalizeFansStage data (normalizeSensorsStage data)).temp_cpu1 = _
  rw [(fansStage_preserves data (normalizeSensorsStage data)).2.2.1]
  simp only [normalizeSensorsStage, hs]
  rw [deriveCpum_cpu1, extractFlats_lw_cpu1]

theorem norm_cpu2_array (data : RawSystemInfo) (l : List Sensor)
    (hs : data.sensors = some l) :
    (normalizeSystemInfo data).temp_cpu2 = lastWrite ["temp_cpu2"] l data.temp_cpu2 := by
  show (normalizeFansStage data (normalizeSensorsStage data)).temp_cpu2 = _
  rw [(fansStage_preserves data (normalizeSensorsStage data)).2.2.2.1]
  simp only [normalizeSensorsStage, hs]
  rw [deriveCpum_cpu2, extractFlats_lw_cpu2]

theorem norm_cpu3_array (data : RawSystemInfo) (l : List Sensor)
    (hs : data.sensors = some l) :
    (normalizeSystemInfo data).temp_cpu3 = lastWrite ["temp_cpu3"] l data.temp_cpu3 := by
  show (normalizeFansStage data (normalizeSensorsStage data)).temp_cpu3 = _
  rw [(fansStage_preserves data (normalizeSensorsStage data)).2.2.2.2.1]
  simp only [normalizeSensorsStage, hs]
  rw [deriveCpum_cpu3, extractFlats_lw_cpu3]

theorem norm_cpub_array (data : RawSystemInfo) (l : List Sensor)
    (hs : data.sensors = some l) :
    (normalizeSystemInfo data).temp_cpub
      = lastWrite ["temp_cpub", "t2", "cpu_cp"] l data.temp_cpub := by
  show (normalizeFansStage data (normalizeSensorsStage data)).temp_cpub = _
  rw [(fansStage_preserves data (normalizeSensorsStage data)).2.2.2.2.2.2.1]
  simp only [normalizeSensorsStage, hs]
  rw [deriveCpum_cpub, extractFlats_lw_cpub]

theorem norm_sw_array (data : RawSystemInfo) (l : List Sensor)
    (hs : data.sensors = some l) :
    (normalizeSystemInfo data).temp_sw
      = lastWrite ["temp_sw", "t3", "switch"] l data.temp_sw := by
  show (normalizeFansStage data (normalizeSensorsStage data)).temp_sw = _
  rw [(fansStage_preserves data (normalizeSensorsStage data)).2.2.2.2.2.2.2]
  simp only [normalizeSensorsStage, hs]
  rw [deriveCpum_sw, extractFlats_lw_sw]

theorem norm_cpum_array (data : RawSystemInfo) (l : List Sensor)
    (hs : data.sensors = some l) :
    (normalizeSystemInfo data).temp_cpum
      = (if (lastWrite ["temp_cpu0"] l data.temp_cpu0).isSome
            ∧ lastWrite ["temp_cpum", "t1", "cpu_ap"] l data.temp_cpum = none then
          some (jsRound
            ([lastWrite ["temp_cpu0"] l data.temp_cpu0,
              lastWrite ["temp_cpu1"] l data.temp_cpu1,
              lastWrite ["temp_cpu2"] l data.temp_cpu2,
              lastWrite ["temp_cpu3"] l data.temp_cpu3].filterMap id).sum
            ([lastWrite ["temp_cpu0"] l data.temp_cpu0,
              lastWrite ["temp_cpu1"] l data.temp_cpu1,
              lastWrite ["temp_cpu2"] l data.temp_cpu2,
              lastWrite ["temp_cpu3"] l data.temp_cpu3].filterMap id).length)
        else lastWrite ["temp_cpum", "t1", "cpu_ap"] l data.temp_cpum) := by
  show (normalizeFansStage data (normalizeSensorsStage data)).temp_cpum = _
  rw [(fansStage_preserves data (normalizeSensorsStage data)).2.2.2.2.2.1]
  simp only [normalizeSensorsStage, hs]
  rw [deriveCpum_cpum, extractFlats_lw_cpum, extractFlats_lw_cpu0, extractFlats_lw_cpu1,
    extractFlats_lw_cpu2, extractFlats_lw_cpu3]

theorem sensorsStage_sensors_array (data : RawSystemInfo) (l : List Sensor)
    (hs : data.sensors = some l) :
    (normalizeSensorsStage data).sensors = some (l.map renameSensor) := by
  simp only [normalizeSensorsStage, hs]
  rw [deriveCpum_sensors, extractFlats_sensors]

theorem sensorsStage_sensors_flat (data : RawSystemInfo) (hs : data.sensors = none) :
    (normalizeSensorsStage data).sensors
      = if (synthSensors data).isEmpty then none else some (synthSensors data) := by
  simp only [normalizeSensorsStage, hs]
  split_ifs <;> simp [hs]

theorem norm_sensors_eq_stage (data : RawSystemInfo) :
    (normalizeSystemInfo data).sensors = (normalizeSensorsStage data).sensors :=
  (fansStage_preserves data (normalizeSensorsStage data)).1

theorem norm_fans_array (data : RawSystemInfo) (lf : List Sensor)
    (hf : data.fans = some lf) :
    (normalizeSystemInfo data).fans = some (lf.map renameFan) := by
  simp only [normalizeSystemInfo, normalizeFansStage, hf]
  cases hm : mainFan lf <;> simp [hm]

theorem norm_fans_flat (data : RawSystemInfo) (hf : data.fans = none) :
    (normalizeSystemInfo data).fans
      = match data.fan_rpm with
        | some v => some [⟨"fan_rpm", "Ventilateur", v⟩]
        | none => none := by
  simp only [normalizeSystemInfo, normalizeFansStage, hf]
  cases hr : data.fan_rpm <;> simp [hr, sensorsStage_fans, hf]

theorem synthSensors_eq_nil_iff (data : RawSystemInfo) :
    synthSensors data = []
      ↔ (data.temp_cpu0 = none ∧ data.temp_cpum = none
          ∧ data.temp_cpub = none ∧ data.temp_sw = none) := by
  rcases h0 : data.temp_cpu0 with _ | v0 <;>
    rcases hm : data.temp_cpum with _ | vm <;>
      rcases hb : data.temp_cpub with _ | vb <;>
        rcases hw : data.temp_sw with _ | vw <;>
          simp [synthSensors, optEntry, h0, hm, hb, hw]

theorem optEntry_eq_toList (id nm : String) (o : Option Int) :
    optEntry id nm o = (o.map (Sensor.mk id nm)).toList := by
  cases o <;> rfl

theorem renameSensor_id (s : Sensor) : (renameSensor s).id = s.id := rfl

theorem renameSensor_value (s : Sensor) : (renameSensor s).value = s.value := rfl

theorem renameFan_id (f : Sensor) : (renameFan f).id = f.id := rfl

theorem renameFan_value (f : Sensor) : (renameFan f).value = f.value := rfl

theorem renameSensor_fix_of_pair (e : Sensor)
    (h : SENSOR_NAMES.lookup e.id = some e.name) : renameSensor e = e := by
  cases e with
  | mk id nm v => simp_all [renameSensor, getSensorDisplayName]

theorem renameSensor_idem_of_lookup (s : Sensor)
    (h : (SENSOR_NAMES.lookup s.id).isSome) :
    renameSensor (renameSensor s) = renameSensor s := by
  obtain ⟨n, hn⟩ := Option.isSome_iff_exists.mp h
  apply renameSensor_fix_of_pair
  simp [renameSensor, getSensorDisplayName, hn]

theorem map_renameSensor_idem (l : List Sensor)
    (h : ∀ s ∈ l, (SENSOR_NAMES.lookup s.id).isSome) :
    (l.map renameSensor).map renameSensor = l.map renameSensor := by
  rw [List.map_map]
  exact List.map_congr_left (fun s hs => renameSensor_idem_of_lookup s (h s hs))

theorem renameFan_idem (f : Sensor) : renameFan (renameFan f) = renameFan f := by
  cases f with
  | mk id nm v =>
    simp only [renameFan, getFanDisplayName]
    cases h : FAN_NAMES.lookup id with
    | some n => simp [h]
    | none =>
      simp only [h]
      by_cases hn : nm ≠ ""
      · simp [hn]
      · simp only [hn, if_neg, ite_not]
        by_cases hc : cleanFanId id = "" <;> simp [hc]

theorem map_renameFan_idem (l : List Sensor) :
    (l.map renameFan).map renameFan = l.map renameFan := by
  rw [List.map_map]
  exact List.map_congr_left (fun f _ => renameFan_idem f)

theorem find?_mainPred_map (l : List Sensor) :
    (l.map renameFan).find?
        (fun f => f.id = "fan0_speed" || f.id = "main" || f.id = "fan0" || f.id = "fan")
      = (l.find?
          (fun f => f.id = "fan0_speed" || f.id = "main" || f.id = "fan0" || f.id = "fan")).map
        renameFan := by
  induction l with
  | nil => rfl
  | cons f l ih =>
    by_cases h : (f.id = "fan0_speed" || f.id = "main" || f.id = "fan0" || f.id = "fan") = true
    · rw [List.map_cons, List.find?_cons, List.find?_cons]
      simp only [renameFan_id, h]
      rfl
    · rw [List.map_cons, List.find?_cons, List.find?_cons]
      simp only [renameFan_id, eq_false_of_ne_true h]
      exact ih

theorem mainFan_map_renameFan (l : List Sensor) :
    mainFan (l.map renameFan) = (mainFan l).map renameFan := by
  simp only [mainFan, find?_mainPred_map]
  cases h : l.find?
      (fun f => f.id = "fan0_speed" || f.id = "main" || f.id = "fan0" || f.id = "fan") with
  | some g => rfl
  | none => simp [Option.orElse, List.head?_map]

theorem lastWrite_optEntry_not_mem (w : List String) (id nm : String) (o : Option Int)
    (d : Option Int) (h : id ∉ w) :
    lastWrite w (optEntry id nm o) d = d := by
  cases o <;> simp [optEntry, lastWrite_nil, lastWrite_cons, h]

theorem lastWrite_optEntry_self (w : List String) (id nm : String) (o : Option Int)
    (h : id ∈ w) :
    lastWrite w (optEntry id nm o) o = o := by
  cases o <;> simp [optEntry, lastWrite_nil, lastWrite_cons, h]

theorem optEntry_mem_fields {e : Sensor} {id nm : String} {o : Option Int}
    (h : e ∈ optEntry id nm o) : e.id = id ∧ e.name = nm := by
  cases o with
  | none => simp [optEntry] at h
  | some v =>
    simp only [optEntry, List.mem_singleton] at h
    subst h
    exact ⟨rfl, rfl⟩

theorem synth_mem_lookup (data : RawSystemInfo) :
    ∀ e ∈ synthSensors data, SENSOR_NAMES.lookup e.id = some e.name := by
  intro e he
  unfold synthSensors at he
  by_cases h0 : data.temp_cpu0.isSome
  · rw [if_pos h0] at he
    simp only [List.mem_append] at he
    rcases he with ((((((he | he) | he) | he) | he) | he) | he) <;>
      obtain ⟨hid, hnm⟩ := optEntry_mem_fields he <;>
        rw [hid, hnm] <;> decide
  · rw [if_neg h0] at he
    simp only [List.nil_append, List.mem_append] at he
    rcases he with ((he | he) | he) <;>
      obtain ⟨hid, hnm⟩ := optEntry_mem_fields he <;>
        rw [hid, hnm] <;> decide

theorem synth_map_rename_fix (data : RawSystemInfo) :
    (synthSensors data).map renameSensor = synthSensors data := by
  have h : ∀ e ∈ synthSensors data, renameSensor e = id e :=
    fun e he => renameSensor_fix_of_pair e (synth_mem_lookup data e he)
  rw [List.map_congr_left h, List.map_id]

theorem lw_synth_cpu0 (data : RawSystemInfo) :
    lastWrite ["temp_cpu0"] (synthSensors data) data.temp_cpu0 = data.temp_cpu0 := by
  unfold synthSensors
  by_cases h0 : data.temp_cpu0.isSome
  · rw [if_pos h0]
    simp only [lastWrite_append]
    rw [lastWrite_optEntry_self ["temp_cpu0"] "temp_cpu0" "CPU 0" data.temp_cpu0 (by decide),
      lastWrite_optEntry_not_mem ["temp_cpu0"] "temp_cpu1" "CPU 1" data.temp_cpu1 _ (by decide),
      lastWrite_optEntry_not_mem ["temp_cpu0"] "temp_cpu2" "CPU 2" data.temp_cpu2 _ (by decide),
      lastWrite_optEntry_not_mem ["temp_cpu0"] "temp_cpu3" "CPU 3" data.temp_cpu3 _ (by decide),
      lastWrite_optEntry_not_mem ["temp_cpu0"] "temp_cpum" "CPU" data.temp_cpum _ (by decide),
      lastWrite_optEntry_not_mem ["temp_cpu0"] "temp_cpub" "CPU Box" data.temp_cpub _ (by decide),
      lastWrite_optEntry_not_mem ["temp_cpu0"] "temp_sw" "Switch" data.temp_sw _ (by decide)]
  · rw [if_neg h0]
    simp only [lastWrite_append, lastWrite_nil]
    rw [lastWrite_optEntry_not_mem ["temp_cpu0"] "temp_cpum" "CPU" data.temp_cpum _ (by decide),
      lastWrite_optEntry_not_mem ["temp_cpu0"] "temp_cpub" "CPU Box" data.temp_cpub _ (by decide),
      lastWrite_optEntry_not_mem ["temp_cpu0"] "temp_sw" "Switch" data.temp_sw _ (by decide)]

theorem lw_synth_cpu1 (data : RawSystemInfo) :
    lastWrite ["temp_cpu1"] (synthSensors data) data.temp_cpu1 = data.temp_cpu1 := by
  unfold synthSensors
  by_cases h0 : data.temp_cpu0.isSome
  · rw [if_pos h0]
    simp only [lastWrite_append]
    rw [lastWrite_optEntry_not_mem ["temp_cpu1"] "temp_cpu0" "CPU 0" data.temp_cpu0 _ (by decide),
      lastWrite_optEntry_self ["temp_cpu1"] "temp_cpu1" "CPU 1" data.temp_cpu1 (by decide),
      lastWrite_optEntry_not_mem ["temp_cpu1"] "temp_cpu2" "CPU 2" data.temp_cpu2 _ (by decide),
      lastWrite_optEntry_not_mem ["temp_cpu1"] "temp_cpu3" "CPU 3" data.temp_cpu3 _ (by decide),
      lastWrite_optEntry_not_mem ["temp_cpu1"] "temp_cpum" "CPU" data.temp_cpum _ (by decide),
      lastWrite_optEntry_not_mem ["temp_cpu1"] "temp_cpub" "CPU Box" data.temp_cpub _ (by decide),
      lastWrite_optEntry_not_mem ["temp_cpu1"] "temp_sw" "Switch" data.temp_sw _ (by decide)]
  · rw [if_neg h0]
    simp only [lastWrite_append, lastWrite_nil]
    rw [lastWrite_optEntry_not_mem ["temp_cpu1"] "temp_cpum" "CPU" data.temp_cpum _ (by decide),
      lastWrite_optEntry_not_mem ["temp_cpu1"] "temp_cpub" "CPU Box" data.temp_cpub _ (by decide),
      lastWrite_optEntry_not_mem ["temp_cpu1"] "temp_sw" "Switch" data.temp_sw _ (by decide)]

theorem lw_synth_cpu2 (data : RawSystemInfo) :
    lastWrite ["temp_cpu2"] (synthSensors data) data.temp_cpu2 = data.temp_cpu2 := by
  unfold synthSensors
  by_cases h0 : data.temp_cpu0.isSome
  · rw [if_pos h0]
    simp only [lastWrite_append]
    rw [lastWrite_optEntry_not_mem ["temp_cpu2"] "temp_cpu0" "CPU 0" data.temp_cpu0 _ (by decide),
      lastWrite_optEntry_not_mem ["temp_cpu2"] "temp_cpu1" "CPU 1" data.temp_cpu1 _ (by decide),
      lastWrite_optEntry_self ["temp_cpu2"] "temp_cpu2" "CPU 2" data.temp_cpu2 (by decide),
      lastWrite_optEntry_not_mem ["temp_cpu2"] "temp_cpu3" "CPU 3" data.temp_cpu3 _ (by decide),
      lastWrite_optEntry_not_mem ["temp_cpu2"] "temp_cpum" "CPU" data.temp_cpum _ (by decide),
      lastWrite_optEntry_not_mem ["temp_cpu2"] "temp_cpub" "CPU Box" data.temp_cpub _ (by decide),
      lastWrite_optEntry_not_mem ["temp_cpu2"] "temp_sw" "Switch" data.temp_sw _ (by decide)]
  · rw [if_neg h0]
    simp only [lastWrite_append, lastWrite_nil]
    rw [lastWrite_optEntry_not_mem ["temp_cpu2"] "temp_cpum" "CPU" data.temp_cpum _ (by decide),
      lastWrite_optEntry_not_mem ["temp_cpu2"] "temp_cpub" "CPU Box" data.temp_cpub _ (by decide),
      lastWrite_optEntry_not_mem ["temp_cpu2"] "temp_sw" "Switch" data.temp_sw _ (by decide)]

theorem lw_synth_cpu3 (data : RawSystemInfo) :
    lastWrite ["temp_cpu3"] (synthSensors data) data.temp_cpu3 = data.temp_cpu3 := by
  unfold synthSensors
  by_cases h0 : data.temp_cpu0.isSome
  · rw [if_pos h0]
    simp only [lastWrite_append]
    rw [lastWrite_optEntry_not_mem ["temp_cpu3"] "temp_cpu0" "CPU 0" data.temp_cpu0 _ (by decide),
      lastWrite_optEntry_not_mem ["temp_cpu3"] "temp_cpu1" "CPU 1" data.temp_cpu1 _ (by decide),
      lastWrite_optEntry_not_mem ["temp_cpu3"] "temp_cpu2" "CPU 2" data.temp_cpu2 _ (by decide),
      lastWrite_optEntry_self ["temp_cpu3"] "temp_cpu3" "CPU 3" data.temp_cpu3 (by decide),
      lastWrite_optEntry_not_mem ["temp_cpu3"] "temp_cpum" "CPU" data.temp_cpum _ (by decide),
      lastWrite_optEntry_not_mem ["temp_cpu3"] "temp_cpub" "CPU Box" data.temp_cpub _ (by decide),
      lastWrite_optEntry_not_mem ["temp_cpu3"] "temp_sw" "Switch" data.temp_sw _ (by decide)]
  · rw [if_neg h0]
    simp only [lastWrite_append, lastWrite_nil]
    rw [lastWrite_optEntry_not_mem ["temp_cpu3"] "temp_cpum" "CPU" data.temp_cpum _ (by decide),
      lastWrite_optEntry_not_mem ["temp_cpu3"] "temp_cpub" "CPU Box" data.temp_cpub _ (by decide),
      lastWrite_optEntry_not_mem ["temp_cpu3"] "temp_sw" "Switch" data.temp_sw _ (by decide)]

theorem lw_synth_cpum (data : RawSystemInfo) :
    lastWrite ["temp_cpum", "t1", "cpu_ap"] (synthSensors data) data.temp_cpum
      = data.temp_cpum := by
  unfold synthSensors
  by_cases h0 : data.temp_cpu0.isSome
  · rw [if_pos h0]
    simp only [lastWrite_append]
    rw [lastWrite_optEntry_not_mem ["temp_cpum", "t1", "cpu_ap"] "temp_cpu0" "CPU 0"
        data.temp_cpu0 _ (by decide),
      lastWrite_optEntry_not_mem ["temp_cpum", "t1", "cpu_ap"] "temp_cpu1" "CPU 1"
        data.temp_cpu1 _ (by decide),
      lastWrite_optEntry_not_mem ["temp_cpum", "t1", "cpu_ap"] "temp_cpu2" "CPU 2"
        data.temp_cpu2 _ (by decide),
      lastWrite_optEntry_not_mem ["temp_cpum", "t1", "cpu_ap"] "temp_cpu3" "CPU 3"
        data.temp_cpu3 _ (by decide),
      lastWrite_optEntry_self ["temp_cpum", "t1", "cpu_ap"] "temp_cpum" "CPU"
        data.temp_cpum (by decide),
      lastWrite_optEntry_not_mem ["temp_cpum", "t1", "cpu_ap"] "temp_cpub" "CPU Box"
        data.temp_cpub _ (by decide),
      lastWrite_optEntry_not_mem ["temp_cpum", "t1", "cpu_ap"] "temp_sw" "Switch"
        data.temp_sw _ (by decide)]
  · rw [if_neg h0]
    simp only [lastWrite_append, lastWrite_nil]
    rw [lastWrite_optEntry_self ["temp_cpum", "t1", "cpu_ap"] "temp_cpum" "CPU"
        data.temp_cpum (by decide),
      lastWrite_optEntry_not_mem ["temp_cpum", "t1", "cpu_ap"] "temp_cpub" "CPU Box"
        data.temp_cpub _ (by decide),
      lastWrite_optEntry_not_mem ["temp_cpum", "t1", "cpu_ap"] "temp_sw" "Switch"
        data.temp_sw _ (by decide)]

theorem lw_synth_cpub (data : RawSystemInfo) :
    lastWrite ["temp_cpub", "t2", "cpu_cp"] (synthSensors data) data.temp_cpub
      = data.temp_cpub := by
  unfold synthSensors
  by_cases h0 : data.temp_cpu0.isSome
  · rw [if_pos h0]
    simp only [lastWrite_append]
    rw [lastWrite_optEntry_not_mem ["temp_cpub", "t2", "cpu_cp"] "temp_cpu0" "CPU 0"
        data.temp_cpu0 _ (by decide),
      lastWrite_optEntry_not_mem ["temp_cpub", "t2", "cpu_cp"] "temp_cpu1" "CPU 1"
        data.temp_cpu1 _ (by decide),
      lastWrite_optEntry_not_mem ["temp_cpub", "t2", "cpu_cp"] "temp_cpu2" "CPU 2"
        data.temp_cpu2 _ (by decide),
      lastWrite_optEntry_not_mem ["temp_cpub", "t2", "cpu_cp"] "temp_cpu3" "CPU 3"
        data.temp_cpu3 _ (by decide),
      lastWrite_optEntry_not_mem ["temp_cpub", "t2", "cpu_cp"] "temp_cpum" "CPU"
        data.temp_cpum _ (by decide),
      lastWrite_optEntry_self ["temp_cpub", "t2", "cpu_cp"] "temp_cpub" "CPU Box"
        data.temp_cpub (by decide),
      lastWrite_optEntry_not_mem ["temp_cpub", "t2", "cpu_cp"] "temp_sw" "Switch"
        data.temp_sw _ (by decide)]
  · rw [if_neg h0]
    simp only [lastWrite_append, lastWrite_nil]
    rw [lastWrite_optEntry_not_mem ["temp_cpub", "t2", "cpu_cp"] "temp_cpum" "CPU"
        data.temp_cpum _ (by decide),
      lastWrite_optEntry_self ["temp_cpub", "t2", "cpu_cp"] "temp_cpub" "CPU Box"
        data.temp_cpub (by decide),
      lastWrite_optEntry_not_mem ["temp_cpub", "t2", "cpu_cp"] "temp_sw" "Switch"
        data.temp_sw _ (by decide)]

theorem lw_synth_sw (data : RawSystemInfo) :
    lastWrite ["temp_sw", "t3", "switch"] (synthSensors data) data.temp_sw
      = data.temp_sw := by
  unfold synthSensors
  by_cases h0 : data.temp_cpu0.isSome
  · rw [if_pos h0]
    simp only [lastWrite_append]
    rw [lastWrite_optEntry_not_mem ["temp_sw", "t3", "switch"] "temp_cpu0" "CPU 0"
        data.temp_cpu0 _ (by decide),
      lastWrite_optEntry_not_mem ["temp_sw", "t3", "switch"] "temp_cpu1" "CPU 1"
        data.temp_cpu1 _ (by decide),
      lastWrite_optEntry_not_mem ["temp_sw", "t3", "switch"] "temp_cpu2" "CPU 2"
        data.temp_cpu2 _ (by decide),
      lastWrite_optEntry_not_mem ["temp_sw", "t3", "switch"] "temp_cpu3" "CPU 3"
        data.temp_cpu3 _ (by decide),
      lastWrite_optEntry_not_mem ["temp_sw", "t3", "switch"] "temp_cpum" "CPU"
        data.temp_cpum _ (by decide),
      lastWrite_optEntry_not_mem ["temp_sw", "t3", "switch"] "temp_cpub" "CPU Box"
        data.temp_cpub _ (by decide),
      lastWrite_optEntry_self ["temp_sw", "t3", "switch"] "temp_sw" "Switch"
        data.temp_sw (by decide)]
  · rw [if_neg h0]
    simp only [lastWrite_append, lastWrite_nil]
    rw [lastWrite_optEntry_not_mem ["temp_sw", "t3", "switch"] "temp_cpum" "CPU"
        data.temp_cpum _ (by decide),
      lastWrite_optEntry_not_mem ["temp_sw", "t3", "switch"] "temp_cpub" "CPU Box"
        data.temp_cpub _ (by decide),
      lastWrite_optEntry_self ["temp_sw", "t3", "switch"] "temp_sw" "Switch"
        data.temp_sw (by decide)]

theorem fansStage_pass2 (data r : RawSystemInfo)
    (hf : r.fans = data.fans) (hr : r.fan_rpm = data.fan_rpm) :
    normalizeFansStage (normalizeFansStage data r) (normalizeFansStage data r)
      = normalizeFansStage data r := by
  cases hdf : data.fans with
  | some lf =>
    cases hm : mainFan lf with
    | some f =>
      simp only [normalizeFansStage, hdf, hm, mainFan_map_renameFan, map_renameFan_idem]
      rfl
    | none =>
      simp only [normalizeFansStage, hdf, hm, mainFan_map_renameFan, map_renameFan_idem]
      rfl
  | none =>
    cases hrr : data.fan_rpm with
    | some v =>
      simp only [normalizeFansStage, hdf, hrr]
      have h1 : renameFan ⟨"fan_rpm", "Ventilateur", v⟩ = ⟨"fan_rpm", "Ventilateur", v⟩ := rfl
      have h2 : mainFan [⟨"fan_rpm", "Ventilateur", v⟩]
          = some ⟨"fan_rpm", "Ventilateur", v⟩ := rfl
      simp only [List.map_cons, List.map_nil, h1, h2]
      rw [hr, hrr]
    | none =>
      simp only [normalizeFansStage, hdf, hrr, hf, hr]

theorem norm_idem_array (data : RawSystemInfo) (l : List Sensor)
    (hs : data.sensors = some l)
    (h2 : ∀ s ∈ l, (SENSOR_NAMES.lookup s.id).isSome) :
    normalizeSystemInfo (normalizeSystemInfo data) = normalizeSystemInfo data := by
  have hsens : (normalizeSystemInfo data).sensors = some (l.map renameSensor) := by
    rw [norm_sensors_eq_stage, sensorsStage_sensors_array data l hs]
  have hA : normalizeSensorsStage (normalizeSystemInfo data) = normalizeSystemInfo data := by
    simp only [normalizeSensorsStage, hsens, map_renameSensor_idem l h2]
    have hE : extractFlats
        { normalizeSystemInfo data with sensors := some (l.map renameSensor) }
        (l.map renameSensor) = normalizeSystemInfo data := by
      apply RawSystemInfo.ext
      · simp only [extractFlats_sensors, hsens]
      · simp only [extractFlats_fans]
      · simp only [extractFlats_lw_cpu0, lastWrite_map_renameSensor,
          norm_cpu0_array data l hs]
        exact lastWrite_absorb _ _ _
      · simp only [extractFlats_lw_cpu1, lastWrite_map_renameSensor,
          norm_cpu1_array data l hs]
        exact lastWrite_absorb _ _ _
      · simp only [extractFlats_lw_cpu2, lastWrite_map_renameSensor,
          norm_cpu2_array data l hs]
        exact lastWrite_absorb _ _ _
      · simp only [extractFlats_lw_cpu3, lastWrite_map_renameSensor,
          norm_cpu3_array data l hs]
        exact lastWrite_absorb _ _ _
      · simp only [extractFlats_lw_cpum, lastWrite_map_renameSensor,
          norm_cpum_array data l hs]
        by_cases hg : (lastWrite ["temp_cpu0"] l data.temp_cpu0).isSome
            ∧ lastWrite ["temp_cpum", "t1", "cpu_ap"] l data.temp_cpum = none
        · rw [if_pos hg]
          exact lastWrite_of_eq_none _ _ _ hg.2 _
        · rw [if_neg hg]
          exact lastWrite_absorb _ _ _
      · simp only [extractFlats_lw_cpub, lastWrite_map_renameSensor,
          norm_cpub_array data l hs]
        exact lastWrite_absorb _ _ _
      · simp only [extractFlats_lw_sw, lastWrite_map_renameSensor,
          norm_sw_array data l hs]
        exact lastWrite_absorb _ _ _
      · simp only [extractFlats_fan_rpm]
    rw [hE]
    apply deriveCpum_id_of_guard_false
    rw [norm_cpum_array data l hs, norm_cpu0_array data l hs]
    by_cases hg : (lastWrite ["temp_cpu0"] l data.temp_cpu0).isSome
        ∧ lastWrite ["temp_cpum", "t1", "cpu_ap"] l data.temp_cpum = none
    · rw [if_pos hg]
      intro hc
      exact absurd hc.2 (by simp)
    · rw [if_neg hg]
      exact hg
  show normalizeFansStage (normalizeSystemInfo data)
    (normalizeSensorsStage (normalizeSystemInfo data)) = normalizeSystemInfo data
  rw [hA]
  exact fansStage_pass2 data (normalizeSensorsStage data)
    (sensorsStage_fans data) (sensorsStage_fan_rpm data)

theorem norm_idem_flat (data : RawSystemInfo) (hs : data.sensors = none)
    (h1 : data.temp_cpu0 = none ∨ data.temp_cpum ≠ none) :
    normalizeSystemInfo (normalizeSystemInfo data) = normalizeSystemInfo data := by
  obtain ⟨q0, q1, q2, q3, qm, qb, qw⟩ := norm_temps_flat data hs
  have hA : normalizeSensorsStage (normalizeSystemInfo data) = normalizeSystemInfo data := by
    by_cases he : (synthSensors data).isEmpty
    · have hnone : (normalizeSystemInfo data).sensors = none := by
        rw [norm_sensors_eq_stage, sensorsStage_sensors_flat data hs, if_pos he]
      simp only [normalizeSensorsStage, hnone]
      have hsyn : synthSensors (normalizeSystemInfo data) = synthSensors data := by
        simp only [synthSensors, q0, q1, q2, q3, qm, qb, qw]
      rw [hsyn, if_pos he]
    · have hsome : (normalizeSystemInfo data).sensors = some (synthSensors data) := by
        rw [norm_sensors_eq_stage, sensorsStage_sensors_flat data hs, if_neg he]
      simp only [normalizeSensorsStage, hsome, synth_map_rename_fix data]
      have hE : extractFlats
          { normalizeSystemInfo data with sensors := some (synthSensors data) }
          (synthSensors data) = normalizeSystemInfo data := by
        apply RawSystemInfo.ext
        · simp only [extractFlats_sensors, hsome]
        · simp only [extractFlats_fans]
        · simp only [extractFlats_lw_cpu0, q0, lw_synth_cpu0]
        · simp only [extractFlats_lw_cpu1, q1, lw_synth_cpu1]
        · simp only [extractFlats_lw_cpu2, q2, lw_synth_cpu2]
        · simp only [extractFlats_lw_cpu3, q3, lw_synth_cpu3]
        · simp only [extractFlats_lw_cpum, qm, lw_synth_cpum]
        · simp only [extractFlats_lw_cpub, qb, lw_synth_cpub]
        · simp only [extractFlats_lw_sw, qw, lw_synth_sw]
        · simp only [extractFlats_fan_rpm]
      rw [hE]
      apply deriveCpum_id_of_guard_false
      rw [qm, q0]
      rcases h1 with h | h
      · rw [h]
        intro hc
        exact absurd hc.1 (by simp)
      · intro hc
        exact h hc.2
  show normalizeFansStage (normalizeSystemInfo data)
    (normalizeSensorsStage (normalizeSystemInfo data)) = normalizeSystemInfo data
  rw [hA]
  exact fansStage_pass2 data (normalizeSensorsStage data)
    (sensorsStage_fans data) (sensorsStage_fan_rpm data)

/-! Claim theorems. -/

/-- C2 (counterexample): for the raw input {sensors: []} the output
    contains sensors = [] — an empty array is emitted rather than the
    key being omitted, because an input-supplied array is passed
    through .map verbatim, so the claim "the output never contains an
    empty sensors or fans array" is false. -/
theorem c2_counterexample :
    (normalizeSystemInfo { sensors := some [] }).sensors = some [] := by decide

/-- C2 (amended): an input-supplied sensors/fans array is re-emitted
    with exactly the input's length (so an empty output array occurs
    only when the input itself supplied an empty array).  When the
    input has no sensors array, the synthesized sensors key is never
    an empty array: it is omitted exactly when none of temp_cpu0,
    temp_cpum, temp_cpub, temp_sw is present (temp_cpu1..3 alone do
    not count, as the per-core block is gated on temp_cpu0), and
    non-empty otherwise.  When the input has no fans array, fans is
    omitted exactly when fan_rpm is absent and is a non-empty
    (one-element) array otherwise. -/
theorem c2_amended_no_spurious_empty (data : RawSystemInfo) :
    (∀ l, data.sensors = some l →
      ((normalizeSystemInfo data).sensors).map List.length = some l.length)
    ∧ (data.sensors = none →
        ∀ l, (normalizeSystemInfo data).sensors = some l → l ≠ [])
    ∧ (data.sensors = none →
        ((normalizeSystemInfo data).sensors = none
          ↔ (data.temp_cpu0 = none ∧ data.temp_cpum = none
              ∧ data.temp_cpub = none ∧ data.temp_sw = none)))
    ∧ (∀ l, data.fans = some l →
        ((normalizeSystemInfo data).fans).map List.length = some l.length)
    ∧ (data.fans = none →
        ∀ l, (normalizeSystemInfo data).fans = some l → l ≠ [])
    ∧ (data.fans = none →
        ((normalizeSystemInfo data).fans = none ↔ data.fan_rpm = none)) := by
  refine ⟨?_, ?_, ?_, ?_, ?_, ?_⟩
  · intro l hl
    rw [norm_sensors_eq_stage, sensorsStage_sensors_array data l hl]
    simp
  · intro hn l' hl'
    rw [norm_sensors_eq_stage, sensorsStage_sensors_flat data hn] at hl'
    by_cases he : (synthSensors data).isEmpty
    · rw [if_pos he] at hl'
      exact absurd hl' (by simp)
    · rw [if_neg he] at hl'
      intro hnil
      apply he
      have hsl : synthSensors data = l' := Option.some_inj.mp hl'
      rw [hsl, hnil]
      rfl
  · intro hn
    rw [norm_sensors_eq_stage, sensorsStage_sensors_flat data hn,
      ← synthSensors_eq_nil_iff data]
    by_cases he : (synthSensors data).isEmpty
    · simp [he, List.isEmpty_iff.mp he]
    · simp only [if_neg he]
      constructor
      · intro h; exact absurd h (by simp)
      · intro h
        exact absurd (by rw [h]; rfl : (synthSensors data).isEmpty = true) he
  · intro l hl
    rw [norm_fans_array data l hl]
    simp
  · intro hf l' hl'
    rw [norm_fans_flat data hf] at hl'
    cases hr : data.fan_rpm with
    | none => rw [hr] at hl'; exact absurd hl' (by simp)
    | some v =>
      rw [hr] at hl'
      simp only [Option.some_inj] at hl'
      simp [← hl']
  · intro hf
    rw [norm_fans_flat data hf]
    cases hr : data.fan_rpm <;> simp [hr]

/-- C2 witness: the amended statement discharged at the concrete input
    {temp_cpum: 47} with no arrays: the synthesized sensors array is
    non-empty and fans is omitted. -/
theorem c2_amended_no_spurious_empty_witness :
    (({ temp_cpum := some 47 } : RawSystemInfo).sensors = none →
      ((normalizeSystemInfo { temp_cpum := some 47 }).sensors = none
        ↔ (({ temp_cpum := some 47 } : RawSystemInfo).temp_cpu0 = none
            ∧ ({ temp_cpum := some 47 } : RawSystemInfo).temp_cpum = none
            ∧ ({ temp_cpum := some 47 } : RawSystemInfo).temp_cpub = none
            ∧ ({ temp_cpum := some 47 } : RawSystemInfo).temp_sw = none)))
    ∧ (({ temp_cpum := some 47 } : RawSystemInfo).fans = none →
        ((normalizeSystemInfo { temp_cpum := some 47 }).fans = none
          ↔ ({ temp_cpum := some 47 } : RawSystemInfo).fan_rpm = none)) :=
  ⟨(c2_amended_no_spurious_empty { temp_cpum := some 47 }).2.2.1,
   (c2_amended_no_spurious_empty { temp_cpum := some 47 }).2.2.2.2.2⟩

/-- C3 (amended): when the input has no array-shaped sensors field,
    the synthesized sensors array consists of the per-core entries —
    emitted only when temp_cpu0 is present, one entry per present
    per-core field in the order cpu0, cpu1, cpu2, cpu3 — followed by
    one entry per present legacy field in the order main-CPU, CPU-box,
    switch; when that list is empty the sensors key is omitted.  In
    particular temp_cpu1..3 produce no entries when temp_cpu0 is
    absent. -/
theorem c3_amended_synthesis_order (data : RawSystemInfo) (h : data.sensors = none) :
    (normalizeSystemInfo data).sensors
      = (let l :=
          (if data.temp_cpu0.isSome then
            (data.temp_cpu0.map (Sensor.mk "temp_cpu0" "CPU 0")).toList
              ++ (data.temp_cpu1.map (Sensor.mk "temp_cpu1" "CPU 1")).toList
              ++ (data.temp_cpu2.map (Sensor.mk "temp_cpu2" "CPU 2")).toList
              ++ (data.temp_cpu3.map (Sensor.mk "temp_cpu3" "CPU 3")).toList
          else [])
            ++ (data.temp_cpum.map (Sensor.mk "temp_cpum" "CPU")).toList
            ++ (data.temp_cpub.map (Sensor.mk "temp_cpub" "CPU Box")).toList
            ++ (data.temp_sw.map (Sensor.mk "temp_sw" "Switch")).toList
        if l.isEmpty then none else some l) := by
  rw [norm_sensors_eq_stage, sensorsStage_sensors_flat data h]
  simp only [synthSensors, optEntry_eq_toList]

/-- C3 witness: the amended characterization discharged at the
    concrete flat input {temp_cpu0:40, temp_cpu2:55, temp_sw:38}. -/
theorem c3_amended_synthesis_order_witness :
    (normalizeSystemInfo
      { temp_cpu0 := some 40, temp_cpu2 := some 55, temp_sw := some 38 }).sensors
      = some [⟨"temp_cpu0", "CPU 0", 40⟩, ⟨"temp_cpu2", "CPU 2", 55⟩,
              ⟨"temp_sw", "Switch", 38⟩] := by
  have h := c3_amended_synthesis_order
    { temp_cpu0 := some 40, temp_cpu2 := some 55, temp_sw := some 38 } rfl
  simpa using h

/-- C1 (counterexample): on the raw flat input
    {temp_cpu0:40, temp_cpu1:42, temp_cpu2:41, temp_cpu3:43} with no
    array-shaped sensors field, normalizeSystemInfo does NOT include
    temp_cpum: the rounded-mean derivation lives inside the
    array-shaped branch only, so the claimed temp_cpum = 42 is false. -/
theorem c1_counterexample :
    (normalizeSystemInfo
      { temp_cpu0 := some 40, temp_cpu1 := some 42,
        temp_cpu2 := some 41, temp_cpu3 := some 43 }).temp_cpum = none
    ∧ (none : Option Int) ≠ some 42 := by decide

/-- C1 (amended): for the array-shaped raw input
    {sensors:[{id:temp_cpu0,value:40},{id:temp_cpu1,value:42},
    {id:temp_cpu2,value:41},{id:temp_cpu3,value:43}]} with no
    temp_cpum field, the normalized output includes temp_cpum = 42
    (the rounded arithmetic mean of the four core values) and a
    sensors array with exactly 4 elements. -/
theorem c1_amended_array_input :
    (normalizeSystemInfo
      { sensors := some [⟨"temp_cpu0", "", 40⟩, ⟨"temp_cpu1", "", 42⟩,
                         ⟨"temp_cpu2", "", 41⟩, ⟨"temp_cpu3", "", 43⟩] }).temp_cpum
      = some 42
    ∧ ((normalizeSystemInfo
      { sensors := some [⟨"temp_cpu0", "", 40⟩, ⟨"temp_cpu1", "", 42⟩,
                         ⟨"temp_cpu2", "", 41⟩, ⟨"temp_cpu3", "", 43⟩] }).sensors).map
        List.length = some 4 := by decide

/-- C3 (counterexample): the input {temp_cpu1:50} has no array-shaped
    sensors field and one flat legacy temperature field present, yet
    normalizeSystemInfo synthesizes no sensors array at all: the
    per-core block is gated on temp_cpu0 being present, so the claimed
    one-entry-per-present-field array does not appear. -/
theorem c3_counterexample :
    (normalizeSystemInfo { temp_cpu1 := some 50 }).sensors = none := by decide

/-- C6 (counterexample): for the raw input
    {sensors:[{id:"fan0_speed", name:"", value:1200}]} (the fan entry
    sits under the sensors key, as the claim states), the output has
    no fan_rpm and no fans array at all, so the claimed fan_rpm = 1200
    is false. -/
theorem c6_counterexample :
    (normalizeSystemInfo { sensors := some [⟨"fan0_speed", "", 1200⟩] }).fan_rpm = none
    ∧ (normalizeSystemInfo { sensors := some [⟨"fan0_speed", "", 1200⟩] }).fans = none := by
  decide

/-- C6 (amended): for the raw input
    {fans:[{id:"fan0_speed", name:"", value:1200}]}, the output has
    fan_rpm = 1200 and fans[0].name resolved via the fan alias table
    to "Ventilateur 1" (not the empty string). -/
theorem c6_amended_fans_input :
    (normalizeSystemInfo { fans := some [⟨"fan0_speed", "", 1200⟩] }).fan_rpm = some 1200
    ∧ (normalizeSystemInfo { fans := some [⟨"fan0_speed", "", 1200⟩] }).fans
      = some [⟨"fan0_speed", "Ventilateur 1", 1200⟩] := by decide

/-- C7 (counterexample): normalization is not idempotent.  For the
    flat input {temp_cpu0:40}, the first pass synthesizes a sensors
    array but derives no temp_cpum (the derivation lives in the
    array-shaped branch); the second pass, now seeing an array-shaped
    input, derives temp_cpum = 40 — so the flat fields of
    normalize(normalize(x)) differ from those of normalize(x). -/
theorem c7_counterexample :
    (normalizeSystemInfo (normalizeSystemInfo { temp_cpu0 := some 40 })).temp_cpum = some 40
    ∧ (normalizeSystemInfo { temp_cpu0 := some 40 }).temp_cpum = none := by decide

/-- C7 (amended): normalize(normalize(x)) = normalize(x) (same sensors
    and fans arrays and same flat fields) for every input x such that
    (a) if x has no array-shaped sensors field then temp_cpu0 is
    absent or temp_cpum is present (otherwise the second pass derives
    an aggregate the first pass did not), and (b) every entry of an
    array-shaped sensors field has an id in the display-name table
    (otherwise the localized-prefix-stripping of display names can
    change again on a repeated pass). -/
theorem c7_amended_idempotent (data : RawSystemInfo)
    (h1 : data.sensors = none → data.temp_cpu0 = none ∨ data.temp_cpum ≠ none)
    (h2 : ∀ l, data.sensors = some l → ∀ s ∈ l, (SENSOR_NAMES.lookup s.id).isSome) :
    normalizeSystemInfo (normalizeSystemInfo data) = normalizeSystemInfo data := by
  cases hs : data.sensors with
  | some l => exact norm_idem_array data l hs (h2 l hs)
  | none => exact norm_idem_flat data hs (h1 hs)

/-- C7 witness: the amended idempotence discharged at a concrete
    array-shaped input with table ids. -/
theorem c7_amended_idempotent_witness :
    normalizeSystemInfo (normalizeSystemInfo
      { sensors := some [⟨"temp_cpu0", "", 40⟩, ⟨"t3", "", 33⟩], fan_rpm := some 900 })
      = normalizeSystemInfo
        { sensors := some [⟨"temp_cpu0", "", 40⟩, ⟨"t3", "", 33⟩], fan_rpm := some 900 } :=
  c7_amended_idempotent
    { sensors := some [⟨"temp_cpu0", "", 40⟩, ⟨"t3", "", 33⟩], fan_rpm := some 900 }
    (fun h => Option.noConfusion h)
    (fun l hl => by
      have hll : l = [⟨"temp_cpu0", "", 40⟩, ⟨"t3", "", 33⟩] :=
        (Option.some_inj.mp hl).symm
      rw [hll]
      decide)

/-- C8: updating the schedule with a partial record whose merge yields
    enabled = true and days = [] returns the merged record to the
    caller (total function, no exception), persists it, and leaves no
    active trigger. -/
theorem c8_update_schedule_empty_days (st : SchedulerState) (p : PartialRebootSchedule)
    (h1 : (mergeSchedule st.schedule p).enabled = true)
    (h2 : (mergeSchedule st.schedule p).days = []) :
    (updateSchedule st p).1.task = none
    ∧ (updateSchedule st p).1.persisted = some (mergeSchedule st.schedule p)
    ∧ (updateSchedule st p).2 = mergeSchedule st.schedule p := by
  simp [updateSchedule, updateCronJob, h2]

/-- C8 witness at the concrete update {enabled:true, days:[]} over the
    default schedule. -/
theorem c8_update_schedule_empty_days_witness :
    (updateSchedule ⟨DEFAULT_SCHEDULE, none, none⟩
      { enabled := some true, days := some [] }).1.task = none
    ∧ (updateSchedule ⟨DEFAULT_SCHEDULE, none, none⟩
      { enabled := some true, days := some [] }).1.persisted
        = some (mergeSchedule DEFAULT_SCHEDULE { enabled := some true, days := some [] })
    ∧ (updateSchedule ⟨DEFAULT_SCHEDULE, none, none⟩
      { enabled := some true, days := some [] }).2
        = mergeSchedule DEFAULT_SCHEDULE { enabled := some true, days := some [] } :=
  c8_update_schedule_empty_days ⟨DEFAULT_SCHEDULE, none, none⟩
    { enabled := some true, days := some [] } (by decide) (by decide)

/-- C10: when the system store holds no prior snapshot, the
    system_status reducer leaves info null (the message's telemetry
    fields are discarded from the snapshot) while still appending one
    point to the temperature history. -/
theorem c10_null_info_discards_message (now : String) (d : SystemStatusData)
    (st : SystemClientState) (h : st.info = none) :
    (wsReduceSystemStatus now d st).info = none
    ∧ (wsReduceSystemStatus now d st).temperatureHistory
      = lastN 59 st.temperatureHistory ++ [sysPoint now d] := by
  simp [wsReduceSystemStatus, h]

/-- C10 witness at a concrete empty store and message. -/
theorem c10_null_info_discards_message_witness :
    (wsReduceSystemStatus "08:00:00" { temp_cpu0 := some 40 } {}).info = none
    ∧ (wsReduceSystemStatus "08:00:00" { temp_cpu0 := some 40 } {}).temperatureHistory
      = lastN 59 ({} : SystemClientState).temperatureHistory
          ++ [sysPoint "08:00:00" { temp_cpu0 := some 40 }] :=
  c10_null_info_discards_message "08:00:00" { temp_cpu0 := some 40 } {} rfl

/-- C4 (counterexample): the system_status message
    {temp_cpu0:10, temp_cpum:99} carries a present flat aggregate
    temp_cpum = 99, yet the websocket reducer records the per-core
    average 10 as the main-CPU aggregate of the appended history
    point: the reducer's priority is the inverse of the normalizer's,
    so the claimed preference for temp_cpum is false. -/
theorem c4_counterexample :
    (wsReduceSystemStatus "12:00:00" { temp_cpu0 := some 10, temp_cpum := some 99 }
        {}).temperatureHistory
      = [{ time := "12:00:00", cpuM := some 10 }]
    ∧ (some (10 : Int)) ≠ some 99 := by decide

/-- C4 (amended): for every system_status message the websocket
    reducer appends one history point whose main-CPU aggregate is
    wsCpuM: when temp_cpu0 is present the aggregate is the rounded
    mean of the available per-core values regardless of temp_cpum, and
    temp_cpum is used only when temp_cpu0 is absent — the inverse of
    the normalizer's priority rule. -/
theorem c4_amended_inverse_priority (now : String) (d : SystemStatusData)
    (st : SystemClientState) :
    (wsReduceSystemStatus now d st).temperatureHistory
      = lastN 59 st.temperatureHistory
          ++ [{ time := now, cpuM := wsCpuM d, cpuB := d.temp_cpub, sw := d.temp_sw }]
    ∧ (d.temp_cpu0 = none → wsCpuM d = d.temp_cpum)
    ∧ (∀ v, d.temp_cpu0 = some v →
        wsCpuM d
          = some (jsRound ([d.temp_cpu0, d.temp_cpu1, d.temp_cpu2, d.temp_cpu3].filterMap id).sum
              ([d.temp_cpu0, d.temp_cpu1, d.temp_cpu2, d.temp_cpu3].filterMap id).length)) := by
  refine ⟨rfl, fun h => by simp [wsCpuM, h], fun v h => ?_⟩
  simp only [wsCpuM, h, Option.isSome_some, if_true]
  simp [h]

/-- C4 witness: the amended statement discharged at the concrete
    message {temp_cpu0:10, temp_cpum:99}. -/
theorem c4_amended_inverse_priority_witness :
    wsCpuM { temp_cpu0 := some 10, temp_cpum := some 99 } = some 10 := by
  have h := (c4_amended_inverse_priority "12:00:00"
    { temp_cpu0 := some 10, temp_cpum := some 99 } {}).2.2 10 rfl
  simpa using h

/-- C5 (counterexample): with a previously known snapshot whose
    temp_cpub is 50, a system_status message in which temp_cpub is
    absent produces a merged snapshot whose temp_cpub is cleared to
    absent rather than retaining 50. -/
theorem c5_counterexample :
    ((wsReduceSystemStatus "12:00:00" {}
        { info := some { temp_cpub := some 50 } }).info.map SystemInfoC.temp_cpub)
      = some none
    ∧ (some (some (50 : Int))) ≠ (some none : Option (Option Int)) := by decide

/-- C5 (amended): when a system_status message is merged into a
    previously known non-null snapshot, only the fields outside the
    telemetry list (e.g. sensors, box_model_name) and uptime_val
    retain their previous value when absent in the message; temp_cpum
    falls back to the recomputed aggregate wsCpuM; the remaining
    telemetry fields (temp_cpu0..3, temp_cpub, temp_sw, fan_rpm) take
    the message's value even when that value is absent, i.e. they are
    cleared rather than retained. -/
theorem c5_amended_merge_clears_absent (now : String) (d : SystemStatusData)
    (st : SystemClientState) (info : SystemInfoC) (h : st.info = some info) :
    ∃ m, (wsReduceSystemStatus now d st).info = some m
    ∧ m.sensors = info.sensors
    ∧ m.box_model_name = info.box_model_name
    ∧ (d.uptime_val = none → m.uptime_val = info.uptime_val)
    ∧ (d.temp_cpum = none → m.temp_cpum = wsCpuM d)
    ∧ m.temp_cpu0 = d.temp_cpu0 ∧ m.temp_cpu1 = d.temp_cpu1
    ∧ m.temp_cpu2 = d.temp_cpu2 ∧ m.temp_cpu3 = d.temp_cpu3
    ∧ m.temp_cpub = d.temp_cpub ∧ m.temp_sw = d.temp_sw
    ∧ m.fan_rpm = d.fan_rpm := by
  refine ⟨mergeInfo d info, ?_, rfl, rfl, ?_, ?_, rfl, rfl, rfl, rfl, rfl, rfl, rfl⟩
  · simp [wsReduceSystemStatus, h]
  · intro hu; simp [mergeInfo, hu, Option.orElse]
  · intro hm; simp [mergeInfo, hm, Option.orElse]

/-- C5 witness: the amended statement discharged at a concrete
    snapshot and an all-absent message. -/
theorem c5_amended_merge_clears_absent_witness :
    ∃ m, (wsReduceSystemStatus "12:00:00" {}
        { info := some { temp_cpub := some 50, uptime_val := some 7 } }).info = some m
    ∧ m.sensors = ({ temp_cpub := some 50, uptime_val := some 7 } : SystemInfoC).sensors
    ∧ m.box_model_name
        = ({ temp_cpub := some 50, uptime_val := some 7 } : SystemInfoC).box_model_name
    ∧ (({} : SystemStatusData).uptime_val = none →
        m.uptime_val = ({ temp_cpub := some 50, uptime_val := some 7 } : SystemInfoC).uptime_val)
    ∧ (({} : SystemStatusData).temp_cpum = none →
        m.temp_cpum = wsCpuM {})
    ∧ m.temp_cpu0 = ({} : SystemStatusData).temp_cpu0
    ∧ m.temp_cpu1 = ({} : SystemStatusData).temp_cpu1
    ∧ m.temp_cpu2 = ({} : SystemStatusData).temp_cpu2
    ∧ m.temp_cpu3 = ({} : SystemStatusData).temp_cpu3
    ∧ m.temp_cpub = ({} : SystemStatusData).temp_cpub
    ∧ m.temp_sw = ({} : SystemStatusData).temp_sw
    ∧ m.fan_rpm = ({} : SystemStatusData).fan_rpm :=
  c5_amended_merge_clears_absent "12:00:00" {}
    { info := some { temp_cpub := some 50, uptime_val := some 7 } }
    { temp_cpub := some 50, uptime_val := some 7 } rfl

/-- C9: for every sequence of incoming client events, the
    connection-rate history and the temperature history each never
    exceed 60 entries (starting from any state within capacity), and
    at every single step the new buffer is exactly the last 60 entries
    of the old buffer with the new point appended — the oldest entries
    are the ones evicted and the order of the remaining entries is
    preserved. -/
theorem c9_history_bounded_oldest_evicted (es : List ClientEvent) (st : ClientState)
    (h1 : st.conn.history.length ≤ 60)
    (h2 : st.sys.temperatureHistory.length ≤ 60) :
    ((clientRun st es).conn.history.length ≤ 60
      ∧ (clientRun st es).sys.temperatureHistory.length ≤ 60)
    ∧ (∀ st2 now s, (clientStep st2 (ClientEvent.connMsg now s)).conn.history
        = lastN 60 (st2.conn.history ++ [connPoint now s]))
    ∧ (∀ st2 now d, (clientStep st2 (ClientEvent.sysMsg now d)).sys.temperatureHistory
        = lastN 60 (st2.sys.temperatureHistory ++ [sysPoint now d]))
    ∧ (∀ st2 now i, (clientStep st2 (ClientEvent.fetchOk now i)).sys.temperatureHistory
        = lastN 60 (st2.sys.temperatureHistory ++ [fetchPoint now i])) :=
  ⟨clientRun_bounds es st h1 h2,
   fun st2 now s => connHistory_step st2 now s,
   fun st2 now d => tempHistory_step_sys st2 now d,
   fun st2 now i => tempHistory_step_fetch st2 now i⟩

/-- C9 witness: the bound discharged at a concrete two-event run from
    the empty client state. -/
theorem c9_history_bounded_oldest_evicted_witness :
    ((clientRun {} [ClientEvent.connMsg "a" ⟨2048, 1024⟩,
        ClientEvent.sysMsg "b" { temp_cpum := some 55 }]).conn.history.length ≤ 60
      ∧ (clientRun {} [ClientEvent.connMsg "a" ⟨2048, 1024⟩,
        ClientEvent.sysMsg "b" { temp_cpum := some 55 }]).sys.temperatureHistory.length ≤ 60)
    ∧ (∀ st2 now s, (clientStep st2 (ClientEvent.connMsg now s)).conn.history
        = lastN 60 (st2.conn.history ++ [connPoint now s]))
    ∧ (∀ st2 now d, (clientStep st2 (ClientEvent.sysMsg now d)).sys.temperatureHistory
        = lastN 60 (st2.sys.temperatureHistory ++ [sysPoint now d]))
    ∧ (∀ st2 now i, (clientStep st2 (ClientEvent.fetchOk now i)).sys.temperatureHistory
        = lastN 60 (st2.sys.temperatureHistory ++ [fetchPoint now i])) :=
  c9_history_bounded_oldest_evicted
    [ClientEvent.connMsg "a" ⟨2048, 1024⟩, ClientEvent.sysMsg "b" { temp_cpum := some 55 }]
    {} (by decide) (by decide)
